import Mathlib

/-!
Shallow embedding of the FWA payment-integrity rule engine
(`agents/*-rules.ts`, `agents/*-agent.ts` of the repository) together with
proofs about the behaviour its specification describes.

Modelling conventions:
* a JS `number` is embedded as `ℚ` (exact rational arithmetic); `Math.round`
  is `jsRound` (round half toward positive infinity, the JS semantics), the
  JS remainder operator `%` is `jsRem` (remainder of truncated division),
  and `Math.sqrt` is `Real.sqrt`;
* JS strings are Lean `String`s; `toLowerCase`, `includes`, `startsWith`
  and the regular expressions appearing in the code are implemented
  character by character with the same matching semantics on the ASCII
  strings the system handles;
* the service-date strings of outlier claims are embedded as their epoch
  timestamps in milliseconds, because the code only ever uses
  `new Date(s).getTime()` on them;
* presentation-only fields (descriptions, recommendations, summaries,
  human-readable names, statistical detail strings) and the processed-at
  timestamps are omitted from the embedded records: no decision logic
  reads them.
-/

namespace FWA

/- The Batteries rational-number arithmetic is `[irreducible]`, which keeps
`decide` from evaluating the embedded functions on concrete inputs; the
development only ever uses it through kernel-checked evaluation. -/
attribute [local semireducible] Rat.add Rat.mul Rat.sub Rat.inv Rat.ofScientific

/-! ### JS numeric primitives -/

/-- JS `Math.round`: round half toward positive infinity. -/
def jsRound (q : ℚ) : ℚ := ((q + 1/2).floor : ℚ)

/-- Truncation toward zero, the integer division underlying the JS `%`. -/
def ratTrunc (q : ℚ) : ℤ := if 0 ≤ q then q.floor else q.ceil

/-- The executable `Rat.floor` agrees with the floor of the ordered field. -/
theorem ratFloor_eq (q : ℚ) : q.floor = ⌊q⌋ := by
  rw [Rat.floor_def', Rat.floor_def]

/-- `jsRound` through the floor of the ordered field. -/
theorem jsRound_eq (q : ℚ) : jsRound q = ((⌊q + 1/2⌋ : ℤ) : ℚ) := by
  rw [jsRound, ratFloor_eq]

/-- JS remainder `a % b` (the sign follows the dividend). -/
def jsRem (a b : ℚ) : ℚ := a - b * ((ratTrunc (a / b) : ℤ) : ℚ)

/-! ### JS string primitives -/

/-- Whitespace class `\s` of JS regular expressions (ASCII part). -/
def isJsSpace (c : Char) : Bool :=
  c == ' ' || c == '\t' || c == '\n' || c == '\r' || c == '\x0b' || c == '\x0c'

/-- Does the pattern (first argument) occur at the head of the text? -/
def hasPre : List Char → List Char → Bool
  | [], _ => true
  | _ :: _, [] => false
  | p :: ps, c :: cs => p == c && hasPre ps cs

/-- Does the pattern occur anywhere in the text? -/
def hasSub (pat : List Char) : List Char → Bool
  | [] => hasPre pat []
  | c :: cs => hasPre pat (c :: cs) || hasSub pat cs

/-- JS `s.includes(pat)`. -/
def strIncludes (s pat : String) : Bool := hasSub pat.data s.data

/-- JS `s.startsWith(pat)`. -/
def strStarts (s pat : String) : Bool := hasPre pat.data s.data

/-- JS `s.toLowerCase()` on the ASCII strings of the system. -/
def lowerStr (s : String) : String := ⟨s.data.map Char.toLower⟩

/-- JS `s.substring(0, 3)`. -/
def firstThree (s : String) : String := ⟨s.data.take 3⟩

/-- Maximal run of decimal digits at the head of the text, and the rest. -/
def munchDigits : List Char → List Char × List Char
  | [] => ([], [])
  | c :: cs =>
    if c.isDigit then
      let r := munchDigits cs
      (c :: r.1, r.2)
    else ([], c :: cs)

/-- JS `parseInt` on a run of decimal digits. -/
def digitsVal (ds : List Char) : ℕ :=
  ds.foldl (fun n c => 10 * n + (c.toNat - 48)) 0

/-- Drop the maximal run of `\s` whitespace at the head of the text. -/
def skipWs : List Char → List Char
  | [] => []
  | c :: cs => if isJsSpace c then skipWs cs else c :: cs

/-- One attempt of the blood-pressure pattern `(\d+)\s*\/\s*(\d+)` anchored
at the head of `l`; for this pattern greedy maximal munch coincides with
the backtracking regex semantics. -/
def bpAt (l : List Char) : Option (ℕ × ℕ) :=
  let m := munchDigits l
  if m.1.isEmpty then none
  else
    match skipWs m.2 with
    | '/' :: r =>
      let m2 := munchDigits (skipWs r)
      if m2.1.isEmpty then none else some (digitsVal m.1, digitsVal m2.1)
    | _ => none

/-- Leftmost match of the blood-pressure pattern. -/
def bpScan : List Char → Option (ℕ × ℕ)
  | [] => none
  | c :: cs =>
    match bpAt (c :: cs) with
    | some r => some r
    | none => bpScan cs

/-- The `parseBP` helper of `med-necessity-agent.ts` / `med-necessity-rules.ts`:
JS `bp.match(/(\d+)\s*\/\s*(\d+)/)` followed by `parseInt` on the two
captures, `none` when the string does not match. -/
def parseBP (bp : String) : Option (ℕ × ℕ) := bpScan bp.data

/-! ### Shared finding vocabulary -/

/-- `FindingSeverity` of `src/types.ts`. -/
inductive Severity
  | Critical
  | High
  | Medium
  | Low
deriving DecidableEq

/-- The severity-point table shared verbatim by the DRG, medical-necessity
and readmission orchestrators (`Critical: 25, High: 15, Medium: 8, Low: 3`;
the `?? 0` fallback of the source is unreachable because the severity
vocabulary is closed). -/
def severityPoints : Severity → ℚ
  | .Critical => 25
  | .High => 15
  | .Medium => 8
  | .Low => 3

/-- `AdmissionType` of `src/types.ts`. -/
inductive AdmissionType
  | Emergency
  | Elective
  | Urgent
  | Newborn
deriving DecidableEq

/-- `DischargeStatus` of `src/types.ts`. -/
inductive DischargeStatus
  | Home
  | SNF
  | LTAC
  | AMA
  | Expired
  | Transferred
deriving DecidableEq

/-- `ICD10Code` of `src/types.ts` (the `description` and `isPrimary`
fields are never read by the rule engine and are omitted). -/
structure ICD10Code where
  code : String
  isMCC : Bool
  isCC : Bool
deriving DecidableEq

/-! ## Medical-necessity vertical (`med-necessity-rules.ts`, `med-necessity-agent.ts`) -/

/-- `MedNecessityFindingCategory` of `src/types.ts`. -/
inductive MNCategory
  | SEVERITY_OF_ILLNESS
  | INTENSITY_OF_SERVICE
  | ADMISSION_CRITERIA
  | LEVEL_OF_CARE
  | CONTINUED_STAY
  | DOCUMENTATION_GAP
deriving DecidableEq

/-- `MedNecessityFinding` (description/recommendation omitted). -/
structure MedNecessityFinding where
  ruleId : String
  category : MNCategory
  severity : Severity
  financialImpact : ℚ
deriving DecidableEq

/-- `MedNecessityStatus` of `src/types.ts`. -/
inductive MedNecessityStatus
  | Pending
  | MeetsCriteria
  | DoesNotMeet
  | Observation
  | Queried
deriving DecidableEq

/-- `RecommendedLevelOfCare` of `src/types.ts`. -/
inductive LevelOfCare
  | Inpatient
  | Observation
  | Outpatient
  | SkilledNursing
  | Home
deriving DecidableEq

/-- The `Met / Not Met / Partially Met` values of a criteria dimension. -/
inductive CriteriaLevel
  | Met
  | NotMet
  | PartiallyMet
deriving DecidableEq

/-- The `Justified / Not Justified / Indeterminate` values of continued stay. -/
inductive StayLevel
  | Justified
  | NotJustified
  | Indeterminate
deriving DecidableEq

/-- `MedNecessityCriteria` of `src/types.ts`. -/
structure MedNecessityCriteria where
  severityOfIllness : CriteriaLevel
  intensityOfService : CriteriaLevel
  admissionCriteria : CriteriaLevel
  continuedStay : StayLevel
deriving DecidableEq

/-- Admission vitals of a `MedNecessityClaim`. -/
structure Vitals where
  bloodPressure : String
  heartRate : ℚ
  temperature : ℚ
  respiratoryRate : ℚ
  o2Saturation : ℚ
deriving DecidableEq

/-- One admission lab value of a `MedNecessityClaim`. -/
structure LabValue where
  name : String
  value : String
  unit : String
  abnormal : Bool
deriving DecidableEq

/-- `MedNecessityClaim` of `src/types.ts`, restricted to the fields the
rule engine and backend read. -/
structure MedNecessityClaim where
  id : String
  admissionType : AdmissionType
  dischargeStatus : DischargeStatus
  lengthOfStay : ℚ
  billedAmount : ℚ
  clinicalNotes : String
  admissionVitals : Vitals
  admissionLabValues : List LabValue
  treatmentsProvided : List String
  ivMedicationsRequired : Bool
  icuAdmission : Bool
  surgicalProcedure : Bool
  telemetryRequired : Bool
  oxygenRequired : Bool
  isolationRequired : Bool
  medNecessityStatus : MedNecessityStatus
deriving DecidableEq

/-- The `notes` helper of `med-necessity-rules.ts`. -/
def mnNotes (claim : MedNecessityClaim) : String := lowerStr claim.clinicalNotes

/-- The `countAbnormalLabs` helper of `med-necessity-rules.ts`. -/
def countAbnormalLabs (claim : MedNecessityClaim) : ℕ :=
  (claim.admissionLabValues.filter (·.abnormal)).length

/-- `RULE-MN-SI-001` (`STABLE_VITALS_LOW_ACUITY`). -/
def checkStableVitalsLowAcuity (claim : MedNecessityClaim) : Option MedNecessityFinding :=
  match parseBP claim.admissionVitals.bloodPressure with
  | none => none
  | some bp =>
    let v := claim.admissionVitals
    let vitalsStable : Bool :=
      decide (100 ≤ bp.1 ∧ bp.1 ≤ 160 ∧ 60 ≤ bp.2 ∧ bp.2 ≤ 95 ∧
        60 ≤ v.heartRate ∧ v.heartRate ≤ 100 ∧
        (97.5 : ℚ) ≤ v.temperature ∧ v.temperature ≤ 99.5 ∧
        12 ≤ v.respiratoryRate ∧ v.respiratoryRate ≤ 20 ∧
        95 ≤ v.o2Saturation)
    if vitalsStable ∧ countAbnormalLabs claim ≤ 1 ∧ claim.icuAdmission = false then
      some { ruleId := "RULE-MN-SI-001", category := .SEVERITY_OF_ILLNESS,
             severity := .High, financialImpact := -(claim.billedAmount) }
    else none

/-- `RULE-MN-SI-002` (`HEMODYNAMIC_INSTABILITY`): the source computes the
instability count and then returns `null` in both branches. -/
def checkHemodynamicInstability (claim : MedNecessityClaim) : Option MedNecessityFinding :=
  match parseBP claim.admissionVitals.bloodPressure with
  | none => none
  | some bp =>
    let v := claim.admissionVitals
    let flags : List Bool :=
      [decide (bp.1 < 90 ∨ bp.2 < 60), decide (110 < v.heartRate),
       decide ((101.0 : ℚ) < v.temperature), decide (22 < v.respiratoryRate),
       decide (v.o2Saturation < 92)]
    let instabilityCount := (flags.filter id).length
    if 2 ≤ instabilityCount ∧ claim.medNecessityStatus = .Pending then none
    else none

/-- `RULE-MN-IS-001` (`LOW_INTENSITY_SERVICES`). -/
def checkLowIntensityServices (claim : MedNecessityClaim) : Option MedNecessityFinding :=
  if claim.ivMedicationsRequired = false ∧ claim.icuAdmission = false ∧
      claim.surgicalProcedure = false ∧ claim.telemetryRequired = false ∧
      claim.oxygenRequired = false ∧ claim.isolationRequired = false then
    some { ruleId := "RULE-MN-IS-001", category := .INTENSITY_OF_SERVICE,
           severity := .High, financialImpact := -(claim.billedAmount) }
  else none

/-- `RULE-MN-IS-002` (`SINGLE_IV_DOSE_ONLY`). -/
def checkSingleIvDoseOnly (claim : MedNecessityClaim) : Option MedNecessityFinding :=
  let n := mnNotes claim
  let singleDose :=
    (strIncludes n "x1 dose" || strIncludes n "one dose" || strIncludes n "single dose") &&
    (strIncludes n "transitioned to oral" || strIncludes n "switched to oral" ||
      strIncludes n "converted to po")
  if singleDose ∧ claim.icuAdmission = false ∧ claim.surgicalProcedure = false then
    some { ruleId := "RULE-MN-IS-002", category := .INTENSITY_OF_SERVICE,
           severity := .Medium, financialImpact := -(claim.billedAmount * 0.6) }
  else none

/-- `RULE-MN-AC-001` (`ELECTIVE_ADMISSION_NO_PROCEDURE`). -/
def checkElectiveAdmissionNoProcedure (claim : MedNecessityClaim) : Option MedNecessityFinding :=
  if claim.admissionType = .Elective ∧ claim.surgicalProcedure = false ∧
      claim.icuAdmission = false then
    let n := mnNotes claim
    let diagnosticOnly :=
      strIncludes n "diagnostic" || strIncludes n "evaluation" ||
      strIncludes n "workup" || strIncludes n "monitoring"
    if diagnosticOnly then
      some { ruleId := "RULE-MN-AC-001", category := .ADMISSION_CRITERIA,
             severity := .Critical, financialImpact := -(claim.billedAmount) }
    else none
  else none

/-- `RULE-MN-AC-002` (`OUTPATIENT_MANAGEABLE`). -/
def checkOutpatientManageable (claim : MedNecessityClaim) : Option MedNecessityFinding :=
  let n := mnNotes claim
  let outpatientIndicators :=
    strIncludes n "could have been managed as outpatient" ||
    strIncludes n "could be managed outpatient" ||
    strIncludes n "outpatient management appropriate" ||
    strIncludes n "could have been managed in outpatient" ||
    (strIncludes n "oral" && strIncludes n "tolerating" && strIncludes n "ambulatory")
  let stableVitals : Bool :=
    decide (claim.admissionVitals.heartRate ≤ 100 ∧
      claim.admissionVitals.temperature ≤ 99.5 ∧
      95 ≤ claim.admissionVitals.o2Saturation)
  if outpatientIndicators ∧ stableVitals ∧ claim.icuAdmission = false then
    some { ruleId := "RULE-MN-AC-002", category := .ADMISSION_CRITERIA,
           severity := .Critical, financialImpact := -(claim.billedAmount) }
  else none

/-- `RULE-MN-LOC-001` (`OBSERVATION_APPROPRIATE`). -/
def checkObservationAppropriate (claim : MedNecessityClaim) : Option MedNecessityFinding :=
  if 2 < claim.lengthOfStay then none
  else
    match parseBP claim.admissionVitals.bloodPressure with
    | none => none
    | some bp =>
      let v := claim.admissionVitals
      let mildlyAbnormal : Bool :=
        decide ((100 < v.heartRate ∧ v.heartRate ≤ 110) ∨
          ((99.5 : ℚ) < v.temperature ∧ v.temperature ≤ 101.0) ∨
          (92 ≤ v.o2Saturation ∧ v.o2Saturation < 95) ∨
          (90 ≤ bp.1 ∧ bp.1 < 100))
      if mildlyAbnormal ∧ claim.lengthOfStay ≤ 2 ∧ claim.icuAdmission = false ∧
          claim.surgicalProcedure = false then
        let n := mnNotes claim
        let respondedQuickly :=
          strIncludes n "responded" || strIncludes n "improved" ||
          strIncludes n "resolved" || strIncludes n "stabilized"
        if respondedQuickly then
          some { ruleId := "RULE-MN-LOC-001", category := .LEVEL_OF_CARE,
                 severity := .High, financialImpact := -(claim.billedAmount * 0.5) }
        else none
      else none

/-- `RULE-MN-CS-001` (`EXCESSIVE_LOS_NO_COMPLICATIONS`). -/
def checkExcessiveLosNoComplications (claim : MedNecessityClaim) : Option MedNecessityFinding :=
  let n := mnNotes claim
  let hasComplications :=
    strIncludes n "complication" || strIncludes n "readmit" ||
    strIncludes n "deteriorat" || strIncludes n "icu transfer" ||
    strIncludes n "return to or" || claim.icuAdmission
  if 5 < claim.lengthOfStay ∧ hasComplications = false ∧ claim.surgicalProcedure = false then
    some { ruleId := "RULE-MN-CS-001", category := .CONTINUED_STAY,
           severity := .Medium, financialImpact := -(claim.billedAmount * 0.3) }
  else none

/-- `RULE-MN-DOC-001` (`MISSING_CLINICAL_INDICATORS`). -/
def checkMissingClinicalIndicators (claim : MedNecessityClaim) : Option MedNecessityFinding :=
  let n := mnNotes claim
  let selfContradicting :=
    strIncludes n "could have been managed" || strIncludes n "not require inpatient" ||
    strIncludes n "no indication for admission" || strIncludes n "social admit"
  if selfContradicting then
    some { ruleId := "RULE-MN-DOC-001", category := .DOCUMENTATION_GAP,
           severity := .Critical, financialImpact := -(claim.billedAmount) }
  else none

/-- `RULE-MN-DOC-002` (`FAILED_OUTPATIENT_NOT_DOCUMENTED`). -/
def checkFailedOutpatientNotDocumented (claim : MedNecessityClaim) : Option MedNecessityFinding :=
  let n := mnNotes claim
  let conditionsNeedingFailedOutpatient :=
    strIncludes n "cellulitis" || strIncludes n "pneumonia" ||
    (strIncludes n "uti" && !strIncludes n "sepsis") ||
    strIncludes n "asthma" || strIncludes n "copd exacerbation"
  let failedOutpatientDocumented :=
    strIncludes n "failed oral" || strIncludes n "failed outpatient" ||
    strIncludes n "refractory" || strIncludes n "not responding to" ||
    strIncludes n "worsening despite"
  if conditionsNeedingFailedOutpatient ∧ failedOutpatientDocumented = false ∧
      claim.icuAdmission = false ∧ claim.admissionType ≠ .Emergency then
    some { ruleId := "RULE-MN-DOC-002", category := .DOCUMENTATION_GAP,
           severity := .Medium, financialImpact := -(claim.billedAmount * 0.4) }
  else none

/-- `MedNecessityRule` of `med-necessity-rules.ts` (the display name is
omitted). -/
structure MedNecessityRule where
  id : String
  category : MNCategory
  check : MedNecessityClaim → Option MedNecessityFinding

/-- `ALL_MED_NECESSITY_RULES`, in the declared order. -/
def ALL_MED_NECESSITY_RULES : List MedNecessityRule :=
  [⟨"RULE-MN-SI-001", .SEVERITY_OF_ILLNESS, checkStableVitalsLowAcuity⟩,
   ⟨"RULE-MN-SI-002", .SEVERITY_OF_ILLNESS, checkHemodynamicInstability⟩,
   ⟨"RULE-MN-IS-001", .INTENSITY_OF_SERVICE, checkLowIntensityServices⟩,
   ⟨"RULE-MN-IS-002", .INTENSITY_OF_SERVICE, checkSingleIvDoseOnly⟩,
   ⟨"RULE-MN-AC-001", .ADMISSION_CRITERIA, checkElectiveAdmissionNoProcedure⟩,
   ⟨"RULE-MN-AC-002", .ADMISSION_CRITERIA, checkOutpatientManageable⟩,
   ⟨"RULE-MN-LOC-001", .LEVEL_OF_CARE, checkObservationAppropriate⟩,
   ⟨"RULE-MN-CS-001", .CONTINUED_STAY, checkExcessiveLosNoComplications⟩,
   ⟨"RULE-MN-DOC-001", .DOCUMENTATION_GAP, checkMissingClinicalIndicators⟩,
   ⟨"RULE-MN-DOC-002", .DOCUMENTATION_GAP, checkFailedOutpatientNotDocumented⟩]

/-- `runAllMedNecessityRules`: the source maps every rule over the claim and
keeps the non-null results, which is exactly `filterMap`. -/
def runAllMedNecessityRules (claim : MedNecessityClaim) : List MedNecessityFinding :=
  ALL_MED_NECESSITY_RULES.filterMap (fun rule => rule.check claim)

/-- Severity-of-illness dimension of `assessCriteria`. -/
def assessSI (claim : MedNecessityClaim) (findings : List MedNecessityFinding) : CriteriaLevel :=
  let v := claim.admissionVitals
  let vitalInstability : Bool :=
    (match parseBP v.bloodPressure with
     | some bp => decide (bp.1 < 90 ∨ bp.2 < 60)
     | none => false) ||
    decide (110 < v.heartRate) || decide ((101.0 : ℚ) < v.temperature) ||
    decide (22 < v.respiratoryRate) || decide (v.o2Saturation < 92)
  let abnormalLabs := countAbnormalLabs claim
  let siFindings := findings.filter (fun f => f.category == .SEVERITY_OF_ILLNESS)
  if vitalInstability ∧ 2 ≤ abnormalLabs then .Met
  else if 0 < siFindings.length then .NotMet
  else if vitalInstability ∨ 2 ≤ abnormalLabs then .PartiallyMet
  else .NotMet

/-- Intensity-of-service dimension of `assessCriteria`. -/
def assessIS (claim : MedNecessityClaim) (findings : List MedNecessityFinding) : CriteriaLevel :=
  let highIntensity : Bool :=
    claim.icuAdmission || claim.surgicalProcedure ||
    (claim.ivMedicationsRequired && claim.telemetryRequired)
  let moderateIntensity : Bool :=
    claim.ivMedicationsRequired || claim.oxygenRequired ||
    claim.telemetryRequired || claim.isolationRequired
  let isFindings := findings.filter (fun f => f.category == .INTENSITY_OF_SERVICE)
  if highIntensity then .Met
  else if 0 < isFindings.length then .NotMet
  else if moderateIntensity then .PartiallyMet
  else .NotMet

/-- Admission-criteria dimension of `assessCriteria`. -/
def assessAC (claim : MedNecessityClaim) (findings : List MedNecessityFinding) : CriteriaLevel :=
  let acFindings := findings.filter (fun f => f.category == .ADMISSION_CRITERIA)
  if 0 < acFindings.length then .NotMet
  else if assessSI claim findings = .Met ∧ assessIS claim findings = .Met then .Met
  else if assessSI claim findings = .NotMet ∧ assessIS claim findings = .NotMet then .NotMet
  else .PartiallyMet

/-- Continued-stay dimension of `assessCriteria`. -/
def assessCS (claim : MedNecessityClaim) (findings : List MedNecessityFinding) : StayLevel :=
  let csFindings := findings.filter (fun f => f.category == .CONTINUED_STAY)
  if 0 < csFindings.length then .NotJustified
  else if claim.lengthOfStay ≤ 3 then .Justified
  else if claim.icuAdmission ∨ claim.surgicalProcedure then .Justified
  else .Indeterminate

/-- `RuleBasedMedNecessityBackend.assessCriteria`. -/
def assessCriteria (claim : MedNecessityClaim) (findings : List MedNecessityFinding) :
    MedNecessityCriteria :=
  ⟨assessSI claim findings, assessIS claim findings,
   assessAC claim findings, assessCS claim findings⟩

/-- `RuleBasedMedNecessityBackend.determineStatus`. -/
def mnDetermineStatus (criteria : MedNecessityCriteria)
    (findings : List MedNecessityFinding) : MedNecessityStatus :=
  let hasCriticalFindings := findings.any (fun f => f.severity == .Critical)
  if criteria.severityOfIllness = .Met ∧ criteria.intensityOfService = .Met ∧
      criteria.admissionCriteria = .Met then .MeetsCriteria
  else if criteria.severityOfIllness = .NotMet ∧ criteria.intensityOfService = .NotMet ∧
      hasCriticalFindings then .DoesNotMeet
  else if criteria.admissionCriteria = .NotMet ∧ hasCriticalFindings then .DoesNotMeet
  else if 0 < (findings.filter (fun f => f.category == .LEVEL_OF_CARE)).length then .Observation
  else if 0 < findings.length then .Queried
  else .MeetsCriteria

/-- `RuleBasedMedNecessityBackend.recommendLevelOfCare`. -/
def recommendLevelOfCare (claim : MedNecessityClaim) (criteria : MedNecessityCriteria)
    (findings : List MedNecessityFinding) : LevelOfCare :=
  if criteria.severityOfIllness = .Met ∧ criteria.intensityOfService = .Met then .Inpatient
  else if criteria.severityOfIllness = .NotMet ∧ criteria.intensityOfService = .NotMet then
    (let n := mnNotes claim
     if strIncludes n "ambulatory" ∧ strIncludes n "tolerating" ∧
         claim.icuAdmission = false then .Outpatient
     else .Observation)
  else if claim.dischargeStatus = .SNF ∨ strIncludes (mnNotes claim) "skilled nursing" then
    .SkilledNursing
  else if 0 < (findings.filter (fun f => f.category == .LEVEL_OF_CARE)).length then .Observation
  else .Inpatient

/-- `RuleBasedMedNecessityBackend.calculateDenialRisk`. -/
def calculateDenialRisk (claim : MedNecessityClaim) (criteria : MedNecessityCriteria)
    (findings : List MedNecessityFinding) : ℚ :=
  let risk : ℚ := 10
  let risk := risk +
    (if criteria.severityOfIllness = .NotMet then 25
     else if criteria.severityOfIllness = .PartiallyMet then 10 else 0)
  let risk := risk +
    (if criteria.intensityOfService = .NotMet then 25
     else if criteria.intensityOfService = .PartiallyMet then 10 else 0)
  let risk := risk + (if criteria.admissionCriteria = .NotMet then 20 else 0)
  let risk := risk +
    ((findings.filter (fun f => f.severity == .Critical)).length : ℚ) * 15
  let risk := risk +
    ((findings.filter (fun f => f.category == .DOCUMENTATION_GAP)).length : ℚ) * 10
  let risk := risk +
    (if claim.admissionType = .Elective ∧ claim.lengthOfStay ≤ 2 then 15 else 0)
  min 100 risk

/-- `MedNecessityBackendResult` (summary string omitted). -/
structure MedNecessityBackendResult where
  medNecessityStatus : MedNecessityStatus
  recommendedLevelOfCare : LevelOfCare
  criteriaAssessment : MedNecessityCriteria
  confidence : ℚ
  denialRisk : ℚ
  estimatedDenialAmount : ℚ
  findings : List MedNecessityFinding

/-- `RuleBasedMedNecessityBackend.evaluate` (the prompt argument is ignored
by the source and omitted here). -/
def mnEvaluate (claim : MedNecessityClaim) : MedNecessityBackendResult :=
  let findings := runAllMedNecessityRules claim
  let criteriaAssessment := assessCriteria claim findings
  let medNecessityStatus := mnDetermineStatus criteriaAssessment findings
  let recommendedLevelOfCare := recommendLevelOfCare claim criteriaAssessment findings
  let denialRisk := calculateDenialRisk claim criteriaAssessment findings
  let estimatedDenialAmount :=
    if medNecessityStatus = .DoesNotMeet then claim.billedAmount
    else if medNecessityStatus = .Observation then jsRound (claim.billedAmount * 0.5)
    else 0
  let confidence : ℚ :=
    if findings.length = 0 then 92 else max 55 (88 - (findings.length : ℚ) * 8)
  ⟨medNecessityStatus, recommendedLevelOfCare, criteriaAssessment, confidence,
   denialRisk, estimatedDenialAmount, findings⟩

/-- `MedNecessityAgent.reviewClaim`: the unified risk score layered on top
of the backend result. -/
def mnRiskScore (claim : MedNecessityClaim) : ℚ :=
  let result := mnEvaluate claim
  let findingsScore := (result.findings.map (fun f => severityPoints f.severity)).sum
  min 100 (jsRound (findingsScore * 0.4 + result.denialRisk * 0.6))

/-! ## DRG validation vertical (`drg-rules.ts`, `drg-validation-agent.ts`) -/

/-- `FindingCategory` of `src/types.ts`. -/
inductive DRGCategory
  | DRG_ASSIGNMENT
  | CC_MCC_VALIDATION
  | CLINICAL_CRITERIA
  | CODING_SEQUENCE
  | UPCODING
  | DOWNCODING
deriving DecidableEq

/-- `DRGValidationFinding` (description/recommendation omitted). -/
structure DRGFinding where
  ruleId : String
  category : DRGCategory
  severity : Severity
  financialImpact : ℚ
deriving DecidableEq

/-- `DRGValidationStatus` of `src/types.ts`. -/
inductive DRGValidationStatus
  | Pending
  | Validated
  | Queried
  | Upcoded
  | Downcoded
deriving DecidableEq

/-- `DRGClaim` of `src/types.ts`, restricted to the fields the DRG rule
engine and backend read. -/
structure DRGClaim where
  id : String
  assignedDRG : String
  assignedDRGDescription : String
  assignedDRGWeight : ℚ
  billedAmount : ℚ
  primaryDiagnosis : ICD10Code
  secondaryDiagnoses : List ICD10Code
  clinicalNotes : String
deriving DecidableEq

/-- The `notes` helper of `drg-rules.ts`. -/
def drgNotes (claim : DRGClaim) : String := lowerStr claim.clinicalNotes

/-- The `hasDxCode` helper of `drg-rules.ts`. -/
def hasDxCode (claim : DRGClaim) (pre : String) : Bool :=
  strStarts claim.primaryDiagnosis.code pre ||
  claim.secondaryDiagnoses.any (fun d => strStarts d.code pre)

/-- The `hasSecondaryMCC` helper of `drg-rules.ts`. -/
def hasSecondaryMCC (claim : DRGClaim) : Bool :=
  claim.secondaryDiagnoses.any (·.isMCC)

/-- One attempt, anchored at the head of `l`, of the tail
`(\d+)\s*(?:hours|hrs|days)` of the ventilation pattern; greedy maximal
munch coincides with the backtracking regex semantics here because a
digit can continue neither the whitespace class nor the unit keywords. -/
def ventNumAt (l : List Char) : Option ℕ :=
  let m := munchDigits l
  if m.1.isEmpty then none
  else
    let r := skipWs m.2
    if hasPre "hours".data r || hasPre "hrs".data r || hasPre "days".data r then
      some (digitsVal m.1)
    else none

/-- Lazy scan for the `.*?(\d+)\s*(?:hours|hrs|days)` tail: the nearest
position where the tail matches, never crossing a newline (the `.` of a JS
regex does not match `\n`). -/
def ventScanNum : List Char → Option ℕ
  | [] => none
  | c :: cs =>
    if c == '\n' then none
    else
      match ventNumAt (c :: cs) with
      | some n => some n
      | none => ventScanNum cs

/-- Does one of the alternatives `mechanical ventilation|intubat|ventilator`
match at the head of `l`? Returns the rest of the text after the match. -/
def ventKeyAt (l : List Char) : Option (List Char) :=
  if hasPre "mechanical ventilation".data l then some (l.drop 22)
  else if hasPre "intubat".data l then some (l.drop 7)
  else if hasPre "ventilator".data l then some (l.drop 10)
  else none

/-- Leftmost match of the ventilation-duration pattern
`/(?:mechanical ventilation|intubat|ventilator).*?(\d+)\s*(?:hours|hrs|days)/`
of `RULE-RESP-001`, returning `parseInt` of the captured digits. -/
def ventScan : List Char → Option ℕ
  | [] => none
  | c :: cs =>
    match ventKeyAt (c :: cs) with
    | some rest =>
      (match ventScanNum rest with
       | some n => some n
       | none => ventScan cs)
    | none => ventScan cs

/-- JS `parseFloat` on a non-empty run of digits and dots (the `[\d.]+`
character class): integer part, at most one dot, fractional part; `none`
models the `NaN` of an unparseable leading segment. -/
def parseFloatDigitsDot (l : List Char) : Option ℚ :=
  let ip := munchDigits l
  match ip.2 with
  | '.' :: r =>
    let fp := munchDigits r
    if ip.1.isEmpty ∧ fp.1.isEmpty then none
    else some ((digitsVal ip.1 : ℚ) + (digitsVal fp.1 : ℚ) / (10 : ℚ) ^ fp.1.length)
  | _ => if ip.1.isEmpty then none else some (digitsVal ip.1 : ℚ)

/-- Maximal run of characters of the class `[\d.]` at the head of the
text, and the rest. -/
def munchDigitsDot : List Char → List Char × List Char
  | [] => ([], [])
  | c :: cs =>
    if c.isDigit || c == '.' then
      let r := munchDigitsDot cs
      (c :: r.1, r.2)
    else ([], c :: cs)

/-- One attempt, anchored at the head of `l`, of the lactic-acid pattern
`lactic acid\s+([\d.]+)` with `parseFloat` applied to the capture. -/
def lacticAt (l : List Char) : Option ℚ :=
  if hasPre "lactic acid".data l then
    match l.drop 11 with
    | c :: r =>
      if isJsSpace c then
        let r2 := skipWs r
        let m := munchDigitsDot r2
        if m.1.isEmpty then none else parseFloatDigitsDot m.1
      else none
    | [] => none
  else none

/-- Leftmost match of the lactic-acid pattern of `RULE-SEP-003`. -/
def lacticScan : List Char → Option ℚ
  | [] => none
  | c :: cs =>
    match lacticAt (c :: cs) with
    | some v => some v
    | none => lacticScan cs

/-- `RULE-SEP-001` (`SEPSIS_MISSED_PRINCIPAL`); the dead local
`sepsisCoded` of the source is not read by the condition and is omitted. -/
def checkSepsisMissedPrincipal (claim : DRGClaim) : Option DRGFinding :=
  let n := drgNotes claim
  let sepsisInNotes :=
    strIncludes n "sepsis" || strIncludes n "septicemia" ||
    strIncludes n "bacteremia" || (strIncludes n "sirs" && strIncludes n "infection")
  let sepsisPrincipal := strStarts claim.primaryDiagnosis.code "A41"
  if sepsisInNotes ∧ sepsisPrincipal = false ∧
      (strStarts claim.primaryDiagnosis.code "N39" ∨
       strStarts claim.primaryDiagnosis.code "J18" ∨
       strStarts claim.primaryDiagnosis.code "L03") then
    some { ruleId := "RULE-SEP-001", category := .CODING_SEQUENCE,
           severity := .Critical, financialImpact := 3100 }
  else none

/-- `RULE-SEP-002` (`SEPSIS_MCC_UNSUPPORTED`). -/
def checkSepsisMccUnsupported (claim : DRGClaim) : Option DRGFinding :=
  if strStarts claim.primaryDiagnosis.code "A41" = false then none
  else if claim.secondaryDiagnoses.any (fun d => strStarts d.code "J96" && d.isMCC) = false then
    none
  else
    let n := drgNotes claim
    let respFailureSupported :=
      strIncludes n "intubat" || strIncludes n "mechanical ventilation" ||
      strIncludes n "bipap" || strIncludes n "high-flow" ||
      (strIncludes n "o2 sat" && strIncludes n "8") ||
      strIncludes n "pao2" || strIncludes n "hypoxemi"
    let respFailureContradicted :=
      strIncludes n "room air" &&
      (strIncludes n "96%" || strIncludes n "97%" || strIncludes n "98%" ||
       strIncludes n "99%" || strIncludes n "no supplemental oxygen")
    if respFailureSupported = false ∨ respFailureContradicted then
      some { ruleId := "RULE-SEP-002", category := .CC_MCC_VALIDATION,
             severity := .High, financialImpact := -8700 }
    else none

/-- `RULE-SEP-003` (`SEPSIS_SHOCK_MISSED`). -/
def checkSepsisShockMissed (claim : DRGClaim) : Option DRGFinding :=
  if strStarts claim.primaryDiagnosis.code "A41" = false then none
  else if hasDxCode claim "R65.21" ∨ hasDxCode claim "R57.2" then none
  else
    let n := drgNotes claim
    let shockIndicators :=
      (strIncludes n "vasopressor" || strIncludes n "norepinephrine" ||
       strIncludes n "levophed" || strIncludes n "dopamine") &&
      (strIncludes n "septic shock" || strIncludes n "map" ||
       strIncludes n "bp 7" || strIncludes n "bp 6" || strIncludes n "hypotension")
    let highLactate : Bool :=
      match lacticScan n.data with
      | some v => decide ((4.0 : ℚ) < v)
      | none => false
    if shockIndicators ∨ (highLactate ∧ strIncludes n "vasopressor") then
      some { ruleId := "RULE-SEP-003", category := .DOWNCODING,
             severity := .Critical, financialImpact := 8700 }
    else none

/-- `RULE-SEP-004` (`SEPSIS_SEQUENCE_ERROR`). -/
def checkSepsisSequenceError (claim : DRGClaim) : Option DRGFinding :=
  let sepsisPrincipal := strStarts claim.primaryDiagnosis.code "A41"
  let sepsisSecondary := claim.secondaryDiagnoses.any (fun d => strStarts d.code "A41")
  let severeSepsisSecondary := claim.secondaryDiagnoses.any (fun d => strStarts d.code "R65.2")
  if sepsisPrincipal = false ∧ sepsisSecondary ∧ severeSepsisSecondary then
    some { ruleId := "RULE-SEP-004", category := .CODING_SEQUENCE,
           severity := .High, financialImpact := 1800 }
  else none

/-- `RULE-CARD-001` (`CHF_MCC_MISSED`): the source pushes one description
per sub-condition and sums the impacts; it fires exactly when one of the
two sub-conditions holds, with the summed impact. -/
def checkChfMccMissed (claim : DRGClaim) : Option DRGFinding :=
  if strStarts claim.primaryDiagnosis.code "I50" = false then none
  else
    let n := drgNotes claim
    let acuteOnChronic :=
      strIncludes n "acute-on-chronic" || strIncludes n "acute decompensated" ||
      (strIncludes n "acute" && strIncludes n "chronic" && strIncludes n "heart failure")
    let specificHFCoded :=
      hasDxCode claim "I50.2" || hasDxCode claim "I50.3" || hasDxCode claim "I50.4"
    let ckdInNotes :=
      (strIncludes n "ckd" || strIncludes n "chronic kidney" || strIncludes n "egfr") &&
      !hasDxCode claim "N18"
    let impact : ℚ :=
      (if acuteOnChronic ∧ specificHFCoded = false then 5000 else 0) +
      (if ckdInNotes then 2900 else 0)
    if (acuteOnChronic ∧ specificHFCoded = false) ∨ ckdInNotes then
      some { ruleId := "RULE-CARD-001", category := .DOWNCODING,
             severity := .High, financialImpact := impact }
    else none

/-- `RULE-CARD-002` (`CARDIAC_PROCEDURE_MISMATCH`). -/
def checkCardiacProcedureMismatch (claim : DRGClaim) : Option DRGFinding :=
  if ¬(claim.assignedDRG = "247" ∨ claim.assignedDRG = "248" ∨
      claim.assignedDRG = "249") then none
  else
    let n := drgNotes claim
    let noIntervention :=
      (strIncludes n "diagnostic" && !strIncludes n "interventional") ||
      strIncludes n "no stent" ||
      strIncludes n "no percutaneous coronary intervention" ||
      strIncludes n "not amenable to intervention" ||
      strIncludes n "medical management"
    if noIntervention then
      some { ruleId := "RULE-CARD-002", category := .UPCODING,
             severity := .Critical, financialImpact := -15250 }
    else none

/-- `RULE-CARD-003` (`AKI_CC_MISSED`). -/
def checkAkiCcMissed (claim : DRGClaim) : Option DRGFinding :=
  if hasDxCode claim "N17" then none
  else
    let n := drgNotes claim
    let akiInNotes :=
      strIncludes n "acute kidney injury" || strIncludes n "acute kidney failure" ||
      strIncludes n "aki" || strIncludes n "acute renal failure"
    let creatinineEvidence :=
      strIncludes n "creatinine" &&
      (strIncludes n "baseline" || strIncludes n "peaked" || strIncludes n "elevated")
    if akiInNotes ∧ creatinineEvidence then
      some { ruleId := "RULE-CARD-003", category := .DOWNCODING,
             severity := .Medium, financialImpact := 2700 }
    else none

/-- `RULE-RESP-001` (`VENTILATION_DRG_MISMATCH`). -/
def checkVentilationDrgMismatch (claim : DRGClaim) : Option DRGFinding :=
  let n := drgNotes claim
  match ventScan n.data with
  | none => none
  | some h =>
    let ventHours : ℕ := if strIncludes n "days" ∧ h < 30 then h * 24 else h
    let isVentDRG := claim.assignedDRG = "207" ∨ claim.assignedDRG = "208"
    if 96 < ventHours ∧ ¬isVentDRG then
      some { ruleId := "RULE-RESP-001", category := .DOWNCODING,
             severity := .Critical, financialImpact := 43900 }
    else none

/-- `RULE-RESP-002` (`PE_MCC_UNSUPPORTED`). -/
def checkPeMccUnsupported (claim : DRGClaim) : Option DRGFinding :=
  let hasPEWithCorPulmonale :=
    claim.primaryDiagnosis.code = "I26.09" ∨
    claim.secondaryDiagnoses.any (fun d => d.code == "I26.09")
  if ¬hasPEWithCorPulmonale then none
  else
    let n := drgNotes claim
    let echoNotSupporting :=
      (strIncludes n "rv size normal" || strIncludes n "rv function normal" ||
       strIncludes n "no rv strain" || strIncludes n "no rv dilation") &&
      strIncludes n "echo"
    if echoNotSupporting then
      some { ruleId := "RULE-RESP-002", category := .UPCODING,
             severity := .High, financialImpact := -6600 }
    else none

/-- `RULE-RESP-003` (`STATUS_ASTHMATICUS_CRITERIA`). -/
def checkStatusAsthmaticusCriteria (claim : DRGClaim) : Option DRGFinding :=
  let hasStatusAsthmaticus :=
    claim.primaryDiagnosis.code = "J46" ∨
    claim.secondaryDiagnoses.any (fun d => d.code == "J46")
  if ¬hasStatusAsthmaticus then none
  else
    let n := drgNotes claim
    let criteriaMet :=
      strIncludes n "refractory" || strIncludes n "intubat" ||
      strIncludes n "respiratory acidosis" || strIncludes n "icu" ||
      (strIncludes n "paco2" && strIncludes n "4" && !strIncludes n "36") ||
      strIncludes n "status asthmaticus criteria"
    let criteriaNotMet :=
      strIncludes n "does not meet status asthmaticus" ||
      strIncludes n "not meet status" ||
      (strIncludes n "paco2" && strIncludes n "36") ||
      (strIncludes n "responded" && strIncludes n "nebulizer")
    if criteriaMet = false ∨ criteriaNotMet then
      some { ruleId := "RULE-RESP-003", category := .UPCODING,
             severity := .High, financialImpact := -4400 }
    else none

/-- `RULE-GEN-001` (`STROKE_CC_MISSED`). -/
def checkStrokeCcMissed (claim : DRGClaim) : Option DRGFinding :=
  let isStroke :=
    strStarts claim.primaryDiagnosis.code "I63" ∨
    strStarts claim.primaryDiagnosis.code "I61"
  if ¬isStroke then none
  else
    let n := drgNotes claim
    let hemiplegiaInNotes :=
      strIncludes n "hemiplegia" || strIncludes n "hemiparesis" ||
      (strIncludes n "weakness" && (strIncludes n "right-sided" || strIncludes n "left-sided"))
    if hemiplegiaInNotes ∧ hasDxCode claim "G81" = false then
      some { ruleId := "RULE-GEN-001", category := .DOWNCODING,
             severity := .High, financialImpact := 4400 }
    else none

/-- `RULE-GEN-002` (`AKI_SEVERITY_OVERCODED`). -/
def checkAkiSeverityOvercoded (claim : DRGClaim) : Option DRGFinding :=
  if strStarts claim.primaryDiagnosis.code "N17" = false then none
  else if ¬hasSecondaryMCC claim then none
  else
    let n := drgNotes claim
    let mildAKI :=
      strIncludes n "stage 1" ||
      (strIncludes n "creatinine" && strIncludes n "2.1" && strIncludes n "baseline") ||
      (strIncludes n "no dialysis" && strIncludes n "urine output maintained")
    let mccContradicted :=
      strIncludes n "does not meet criteria" || strIncludes n "does not support mcc" ||
      strIncludes n "mild" || (strIncludes n "corrected" && strIncludes n "by day")
    if mildAKI ∧ mccContradicted then
      some { ruleId := "RULE-GEN-002", category := .UPCODING,
             severity := .High, financialImpact := -5500 }
    else none

/-- `RULE-GEN-003` (`GI_BLEED_MCC_MISSED`). -/
def checkGiBleedMccMissed (claim : DRGClaim) : Option DRGFinding :=
  let isGIBleed :=
    strStarts claim.primaryDiagnosis.code "K92" ∨
    strStarts claim.primaryDiagnosis.code "K25" ∨
    strStarts claim.primaryDiagnosis.code "K26"
  if ¬isGIBleed then none
  else
    let n := drgNotes claim
    let dicEvidence :=
      (strIncludes n "dic" || strIncludes n "disseminated intravascular coagulation") &&
      (strIncludes n "d-dimer" || strIncludes n "fibrinogen" || strIncludes n "inr")
    if dicEvidence ∧ hasDxCode claim "D65" = false then
      some { ruleId := "RULE-GEN-003", category := .DOWNCODING,
             severity := .Critical, financialImpact := 7200 }
    else none

/-- `ValidationRule` of `drg-rules.ts` (display name omitted). -/
structure ValidationRule where
  id : String
  category : DRGCategory
  check : DRGClaim → Option DRGFinding

/-- `ALL_RULES` of `drg-rules.ts`, in the declared order. -/
def ALL_DRG_RULES : List ValidationRule :=
  [⟨"RULE-SEP-001", .CODING_SEQUENCE, checkSepsisMissedPrincipal⟩,
   ⟨"RULE-SEP-002", .CC_MCC_VALIDATION, checkSepsisMccUnsupported⟩,
   ⟨"RULE-SEP-003", .DOWNCODING, checkSepsisShockMissed⟩,
   ⟨"RULE-SEP-004", .CODING_SEQUENCE, checkSepsisSequenceError⟩,
   ⟨"RULE-CARD-001", .DOWNCODING, checkChfMccMissed⟩,
   ⟨"RULE-CARD-002", .UPCODING, checkCardiacProcedureMismatch⟩,
   ⟨"RULE-CARD-003", .DOWNCODING, checkAkiCcMissed⟩,
   ⟨"RULE-RESP-001", .DOWNCODING, checkVentilationDrgMismatch⟩,
   ⟨"RULE-RESP-002", .UPCODING, checkPeMccUnsupported⟩,
   ⟨"RULE-RESP-003", .UPCODING, checkStatusAsthmaticusCriteria⟩,
   ⟨"RULE-GEN-001", .DOWNCODING, checkStrokeCcMissed⟩,
   ⟨"RULE-GEN-002", .UPCODING, checkAkiSeverityOvercoded⟩,
   ⟨"RULE-GEN-003", .DOWNCODING, checkGiBleedMccMissed⟩]

/-- `runAllRules` of `drg-rules.ts`. -/
def runAllDRGRules (claim : DRGClaim) : List DRGFinding :=
  ALL_DRG_RULES.filterMap (fun rule => rule.check claim)

/-- The `MS_DRG_WEIGHTS` table of `drg-validation-agent.ts`:
DRG code to (relative weight, description). -/
def MS_DRG_WEIGHTS : String → Option (ℚ × String)
  | "062" => some (1.8065, "Intracranial Hemorrhage or Cerebral Infarction w CC")
  | "064" => some (0.7581, "Intracranial Hemorrhage or Cerebral Infarction w MCC")
  | "066" => some (1.0968, "Intracranial Hemorrhage or Cerebral Infarction w/o CC/MCC")
  | "175" => some (1.7581, "Pulmonary Embolism w MCC")
  | "176" => some (1.0806, "Pulmonary Embolism w/o MCC")
  | "190" => some (1.5220, "COPD w MCC")
  | "193" => some (1.7984, "Simple Pneumonia & Pleurisy w MCC")
  | "194" => some (1.0274, "Simple Pneumonia & Pleurisy w CC")
  | "199" => some (1.0613, "Pneumothorax & Pleural Effusion w CC")
  | "202" => some (1.0290, "Bronchitis & Asthma w CC/MCC")
  | "203" => some (0.6855, "Bronchitis & Asthma w/o CC/MCC")
  | "207" => some (8.5161, "Resp System Diagnosis w Ventilator Support >96 Hours")
  | "247" => some (3.4919, "Perc Cardiovasc Proc w Drug-Eluting Stent w MCC")
  | "280" => some (1.7581, "Acute Myocardial Infarction, Discharged Alive w MCC")
  | "281" => some (1.2742, "Acute Myocardial Infarction, Discharged Alive w CC")
  | "282" => some (1.0758, "Acute Myocardial Infarction, Discharged Alive w/o CC/MCC")
  | "291" => some (2.2742, "Heart Failure & Shock w MCC")
  | "292" => some (1.1065, "Heart Failure & Shock w CC")
  | "293" => some (0.7145, "Heart Failure & Shock w/o CC/MCC")
  | "303" => some (1.2581, "Atherosclerosis w CC")
  | "304" => some (0.6542, "Hypertension w/o MCC")
  | "309" => some (0.9194, "Cardiac Arrhythmia & Conduction Disorders w CC")
  | "376" => some (2.1129, "GI Hemorrhage w MCC")
  | "377" => some (1.1452, "GI Hemorrhage w CC")
  | "378" => some (0.9516, "GI Hemorrhage w/o CC/MCC")
  | "481" => some (1.9823, "Hip & Femur Procedures Except Major Joint w CC")
  | "603" => some (0.8871, "Cellulitis w/o MCC")
  | "682" => some (1.8871, "Renal Failure w MCC")
  | "683" => some (1.1290, "Renal Failure w CC")
  | "684" => some (0.7742, "Renal Failure w/o CC/MCC")
  | "690" => some (0.9284, "Kidney & Urinary Tract Infections w/o MCC")
  | "871" => some (2.8871, "Septicemia or Severe Sepsis w/o MV >96 Hours w MCC")
  | "872" => some (1.4839, "Septicemia or Severe Sepsis w/o MV >96 Hours w/o MCC")
  | _ => none

/-- `MS_DRG_BASE_RATE` of `drg-validation-agent.ts`. -/
def MS_DRG_BASE_RATE : ℚ := 6200

/-- The `EXPECTED_DRG_MAP` claim-id-indexed override table of
`drg-validation-agent.ts`: claim id to (expected DRG, description). -/
def EXPECTED_DRG_MAP : String → Option (String × String)
  | "DRG-001" => some ("871", "Septicemia or Severe Sepsis w/o MV >96 Hours w MCC")
  | "DRG-002" => some ("872", "Septicemia or Severe Sepsis w/o MV >96 Hours w/o MCC")
  | "DRG-004" => some ("871", "Septicemia or Severe Sepsis w/o MV >96 Hours w MCC")
  | "DRG-005" => some ("871", "Septicemia or Severe Sepsis w/o MV >96 Hours w MCC")
  | "DRG-007" => some ("291", "Heart Failure & Shock w MCC")
  | "DRG-009" => some ("282", "Acute Myocardial Infarction, Discharged Alive w/o CC/MCC")
  | "DRG-010" => some ("304", "Hypertension w/o MCC")
  | "DRG-012" => some ("207", "Resp System Diagnosis w Ventilator Support >96 Hours")
  | "DRG-013" => some ("176", "Pulmonary Embolism w/o MCC")
  | "DRG-014" => some ("203", "Bronchitis & Asthma w/o CC/MCC")
  | "DRG-016" => some ("062", "Intracranial Hemorrhage or Cerebral Infarction w CC")
  | "DRG-018" => some ("683", "Renal Failure w CC")
  | "DRG-019" => some ("376", "GI Hemorrhage w MCC")
  | _ => none

/-- The status-derivation decision tree of `RuleBasedBackend.validate`. -/
def determineValidationStatus (findings : List DRGFinding) : DRGValidationStatus :=
  let hasUpcoding := findings.any (fun f => f.category == .UPCODING)
  let hasDowncoding := findings.any (fun f => f.category == .DOWNCODING)
  let hasCriticalOrHigh :=
    findings.any (fun f => f.severity == .Critical || f.severity == .High)
  if 0 < findings.length then
    if hasUpcoding && !hasDowncoding then .Upcoded
    else if hasDowncoding && !hasUpcoding then .Downcoded
    else if hasCriticalOrHigh then .Queried
    else .Queried
  else .Validated

/-- `AgentBackendResult` of `drg-validation-agent.ts` (summary omitted). -/
structure AgentBackendResult where
  validationStatus : DRGValidationStatus
  expectedDRG : String
  expectedDRGDescription : String
  expectedDRGWeight : ℚ
  confidence : ℚ
  findings : List DRGFinding

/-- `RuleBasedBackend.validate` (the prompt argument is ignored by the
source and omitted here). -/
def drgValidate (claim : DRGClaim) : AgentBackendResult :=
  let findings := runAllDRGRules claim
  let validationStatus := determineValidationStatus findings
  let expected := EXPECTED_DRG_MAP claim.id
  let expectedDRG := match expected with | some e => e.1 | none => claim.assignedDRG
  let expectedDRGDescription :=
    match expected with | some e => e.2 | none => claim.assignedDRGDescription
  let expectedDRGWeight :=
    match MS_DRG_WEIGHTS expectedDRG with
    | some w => w.1
    | none => claim.assignedDRGWeight
  let confidence : ℚ :=
    if findings.length = 0 then 95 else max 60 (90 - (findings.length : ℚ) * 7)
  ⟨validationStatus, expectedDRG, expectedDRGDescription, expectedDRGWeight,
   confidence, findings⟩

/-- `DRGReviewResult` of `drg-validation-agent.ts` (claim id, timestamp and
summary omitted). -/
structure DRGReviewResult where
  validationStatus : DRGValidationStatus
  expectedDRG : String
  expectedDRGDescription : String
  expectedDRGWeight : ℚ
  expectedReimbursement : ℚ
  financialVariance : ℚ
  agentConfidence : ℚ
  agentFindings : List DRGFinding
  riskScore : ℚ

/-- `DRGValidationAgent.reviewClaim`. -/
def drgReviewClaim (claim : DRGClaim) : DRGReviewResult :=
  let result := drgValidate claim
  let expectedReimbursement := jsRound (result.expectedDRGWeight * MS_DRG_BASE_RATE)
  let financialVariance := expectedReimbursement - claim.billedAmount
  let severityScore := (result.findings.map (fun f => severityPoints f.severity)).sum
  let varianceScore := min 50 (jsRound (|financialVariance| / 800))
  let riskScore := min 100 (severityScore + varianceScore)
  ⟨result.validationStatus, result.expectedDRG, result.expectedDRGDescription,
   result.expectedDRGWeight, expectedReimbursement, financialVariance,
   result.confidence, result.findings, riskScore⟩

/-! ## Readmission vertical (`readmission-rules.ts`, readmission agent) -/

/-- `ReadmissionFindingCategory` of `src/types.ts`. -/
inductive RACategory
  | CLINICAL_RELATEDNESS
  | DISCHARGE_ADEQUACY
  | TIMING_PATTERN
  | DRG_BUNDLING
  | QUALITY_CONCERN
  | DOCUMENTATION_GAP
deriving DecidableEq

/-- `ReadmissionFinding` (description/recommendation omitted). -/
structure ReadmissionFinding where
  ruleId : String
  category : RACategory
  severity : Severity
  financialImpact : ℚ
deriving DecidableEq

/-- `ReadmissionReviewStatus` of `src/types.ts`. -/
inductive ReadmissionReviewStatus
  | Pending
  | ClinicallyRelated
  | NotRelated
  | Planned
  | PotentiallyPreventable
  | BundleCandidate
deriving DecidableEq

/-- The clinical-relatedness gradient. -/
inductive Relatedness
  | DefinitelyRelated
  | LikelyRelated
  | PossiblyRelated
  | NotRelated
deriving DecidableEq

/-- `ReadmissionPair` of `src/types.ts`, restricted to the fields the rule
engine and backend read. `daysBetween` is the number of whole days between
the index discharge and the readmission; per the data model (§3) it is a
derived nonnegative whole-day count, embedded as `ℕ`. -/
structure ReadmissionPair where
  id : String
  indexAdmissionType : AdmissionType
  indexDischargeStatus : DischargeStatus
  indexLengthOfStay : ℚ
  indexDRG : String
  indexBilledAmount : ℚ
  indexPrimaryDiagnosis : ICD10Code
  indexSecondaryDiagnoses : List ICD10Code
  indexClinicalNotes : String
  indexDischargePlan : Option String
  readmitDRG : String
  readmitBilledAmount : ℚ
  readmitPrimaryDiagnosis : ICD10Code
  readmitSecondaryDiagnoses : List ICD10Code
  readmitClinicalNotes : String
  daysBetween : ℕ
  sameFacility : Bool
  combinedBilledAmount : ℚ
  hrrpTargetCondition : Option String
  isPlannedReadmission : Bool
deriving DecidableEq

/-- The `indexNotes` helper of `readmission-rules.ts`. -/
def indexNotes (pair : ReadmissionPair) : String := lowerStr pair.indexClinicalNotes

/-- The `readmitNotes` helper of `readmission-rules.ts`. -/
def readmitNotes (pair : ReadmissionPair) : String := lowerStr pair.readmitClinicalNotes

/-- The `samePrincipalDxCategory` helper: first three characters of the
two principal ICD-10 codes agree. -/
def samePrincipalDxCategory (pair : ReadmissionPair) : Bool :=
  firstThree pair.indexPrimaryDiagnosis.code == firstThree pair.readmitPrimaryDiagnosis.code

/-- The `sharedDiagnosisCodes` helper of `readmission-rules.ts`. -/
def sharedDiagnosisCodes (pair : ReadmissionPair) : List String :=
  let indexCodes :=
    pair.indexPrimaryDiagnosis.code :: pair.indexSecondaryDiagnoses.map (·.code)
  let readmitCodes :=
    pair.readmitPrimaryDiagnosis.code :: pair.readmitSecondaryDiagnoses.map (·.code)
  readmitCodes.filter (fun c => indexCodes.contains c)

/-- `RULE-RA-CR-001` (`SAME_PRINCIPAL_DIAGNOSIS`). -/
def checkSamePrincipalDiagnosis (pair : ReadmissionPair) : Option ReadmissionFinding :=
  if ¬samePrincipalDxCategory pair then none
  else if pair.isPlannedReadmission then none
  else
    some { ruleId := "RULE-RA-CR-001", category := .CLINICAL_RELATEDNESS,
           severity := .High, financialImpact := -(pair.readmitBilledAmount) }

/-- `RULE-RA-CR-002` (`COMPLICATION_OF_INDEX_TREATMENT`). -/
def checkComplicationOfIndexTreatment (pair : ReadmissionPair) : Option ReadmissionFinding :=
  let rn := readmitNotes pair
  let isComplication :=
    strIncludes rn "complication" || strIncludes rn "post-surgical" ||
    strIncludes rn "postoperative" || strIncludes rn "surgical site infection" ||
    strIncludes rn "post-procedural" || strIncludes rn "adverse drug event" ||
    strIncludes rn "digoxin toxicity" || strIncludes rn "medication-related"
  let hasTCode :=
    pair.readmitSecondaryDiagnoses.any
      (fun d => strStarts d.code "T8" || strStarts d.code "T84")
  if isComplication ∨ hasTCode then
    some { ruleId := "RULE-RA-CR-002", category := .CLINICAL_RELATEDNESS,
           severity := .Critical, financialImpact := -(pair.readmitBilledAmount) }
  else none

/-- `RULE-RA-CR-003` (`PROGRESSION_OF_DISEASE`). -/
def checkProgressionOfDisease (pair : ReadmissionPair) : Option ReadmissionFinding :=
  let rn := readmitNotes pair
  let progression :=
    strIncludes rn "progressed" || strIncludes rn "progression" ||
    strIncludes rn "worsening" || strIncludes rn "escalation" ||
    strIncludes rn "same organism" || strIncludes rn "same condition" ||
    strIncludes rn "incompletely treated" || strIncludes rn "incomplete treatment"
  let shared := sharedDiagnosisCodes pair
  if progression ∧ 0 < shared.length then
    some { ruleId := "RULE-RA-CR-003", category := .CLINICAL_RELATEDNESS,
           severity := .High, financialImpact := -(pair.readmitBilledAmount * 0.7) }
  else none

/-- `RULE-RA-DA-001` (`PREMATURE_DISCHARGE`). -/
def checkPrematureDischarge (pair : ReadmissionPair) : Option ReadmissionFinding :=
  if pair.isPlannedReadmission then none
  else
    let shortStay := pair.indexLengthOfStay ≤ 2
    let rapidReadmit := pair.daysBetween ≤ 3
    let sameDx := samePrincipalDxCategory pair
    let rn := readmitNotes pair
    let prematureIndicators :=
      strIncludes rn "premature discharge" || strIncludes rn "inadequate" ||
      strIncludes rn "identical" || strIncludes rn "same presentation" ||
      strIncludes rn "single episode"
    if shortStay ∧ rapidReadmit ∧ (sameDx ∨ prematureIndicators) then
      some { ruleId := "RULE-RA-DA-001", category := .DISCHARGE_ADEQUACY,
             severity := .Critical, financialImpact := -(pair.readmitBilledAmount) }
    else none

/-- `RULE-RA-DA-002` (`AMA_DISCHARGE_READMISSION`). -/
def checkAmaDischargeReadmission (pair : ReadmissionPair) : Option ReadmissionFinding :=
  if pair.indexDischargeStatus ≠ .AMA then none
  else if samePrincipalDxCategory pair ∧ pair.daysBetween ≤ 7 then
    some { ruleId := "RULE-RA-DA-002", category := .DISCHARGE_ADEQUACY,
           severity := .High, financialImpact := -(pair.readmitBilledAmount * 0.8) }
  else none

/-- `RULE-RA-DA-003` (`INADEQUATE_FOLLOW_UP`). -/
def checkInadequateFollowUp (pair : ReadmissionPair) : Option ReadmissionFinding :=
  if pair.isPlannedReadmission then none
  else
    let rn := readmitNotes pair
    let followUpGap :=
      strIncludes rn "no follow-up" || strIncludes rn "did not follow up" ||
      strIncludes rn "no pulmonology follow-up" ||
      strIncludes rn "no cardiology follow-up" ||
      strIncludes rn "ran out of" || strIncludes rn "stopped taking" ||
      strIncludes rn "did not complete" ||
      strIncludes rn "medication noncompliance" || strIncludes rn "noncompliance"
    if followUpGap ∧ pair.daysBetween ≤ 30 then
      some { ruleId := "RULE-RA-DA-003", category := .DISCHARGE_ADEQUACY,
             severity := .Medium, financialImpact := -(pair.readmitBilledAmount * 0.3) }
    else none

/-- `RULE-RA-TP-001` (`SAME_DAY_TRANSFER`). -/
def checkSameDayTransfer (pair : ReadmissionPair) : Option ReadmissionFinding :=
  if 0 < pair.daysBetween then none
  else if pair.sameFacility then none
  else if pair.indexDischargeStatus = .Transferred then
    some { ruleId := "RULE-RA-TP-001", category := .TIMING_PATTERN,
           severity := .Critical, financialImpact := -(pair.indexBilledAmount * 0.6) }
  else none

/-- `RULE-RA-TP-002` (`RAPID_READMISSION_PATTERN`). -/
def checkRapidReadmission (pair : ReadmissionPair) : Option ReadmissionFinding :=
  if 3 < pair.daysBetween then none
  else if pair.daysBetween = 0 then none
  else if pair.isPlannedReadmission then none
  else
    some { ruleId := "RULE-RA-TP-002", category := .TIMING_PATTERN,
           severity := .High, financialImpact := -(pair.readmitBilledAmount) }

/-- `RULE-RA-DB-001` (`IDENTICAL_DRG_BUNDLING`). -/
def checkIdenticalDrgBundling (pair : ReadmissionPair) : Option ReadmissionFinding :=
  if pair.isPlannedReadmission then none
  else if pair.indexDRG ≠ pair.readmitDRG then none
  else if 14 < pair.daysBetween then none
  else
    some { ruleId := "RULE-RA-DB-001", category := .DRG_BUNDLING,
           severity := .Critical, financialImpact := -(pair.readmitBilledAmount) }

/-- `RULE-RA-QC-001` (`REVOLVING_DOOR_PATTERN`). -/
def checkRevolvingDoorPattern (pair : ReadmissionPair) : Option ReadmissionFinding :=
  let rn := readmitNotes pair
  let revolvingDoor :=
    strIncludes rn "revolving door" || strIncludes rn "third" ||
    strIncludes rn "fourth" || strIncludes rn "multiple admissions" ||
    strIncludes rn "recurrent admissions" || strIncludes rn "frequent flyer"
  let noOptimization :=
    strIncludes rn "no evidence of medication optimization" ||
    strIncludes rn "no disease management" || strIncludes rn "no palliative care" ||
    strIncludes rn "without medication optimization" || strIncludes rn "no social work"
  if revolvingDoor ∨ (samePrincipalDxCategory pair ∧ noOptimization) then
    some { ruleId := "RULE-RA-QC-001", category := .QUALITY_CONCERN,
           severity := .Critical, financialImpact := -(pair.readmitBilledAmount) }
  else none

/-- `RULE-RA-QC-002` (`SURGICAL_COMPLICATION_QUALITY`). -/
def checkSurgicalComplicationQuality (pair : ReadmissionPair) : Option ReadmissionFinding :=
  let idx := indexNotes pair
  let indexSurgical :=
    pair.indexAdmissionType = .Elective ∧
    (strIncludes idx "surgery" ∨ strIncludes idx "arthroplasty" ∨
     strIncludes idx "appendectomy" ∨ strIncludes idx "procedure")
  let rn := readmitNotes pair
  let readmitComplication :=
    pair.readmitSecondaryDiagnoses.any
      (fun d => strStarts d.code "T81" || strStarts d.code "T84") ||
    strIncludes rn "surgical site infection" ||
    strIncludes rn "post-surgical complication" || strIncludes rn "postoperative"
  if indexSurgical ∧ readmitComplication ∧ pair.daysBetween ≤ 30 then
    some { ruleId := "RULE-RA-QC-002", category := .QUALITY_CONCERN,
           severity := .High, financialImpact := -(pair.readmitBilledAmount) }
  else none

/-- `RULE-RA-DOC-001` (`MISSING_DISCHARGE_PLAN`). -/
def checkMissingDischargePlan (pair : ReadmissionPair) : Option ReadmissionFinding :=
  if pair.isPlannedReadmission then none
  else
    let hasNoPlan := pair.indexDischargePlan = none
    let indexDp := lowerStr (pair.indexDischargePlan.getD "")
    let minimalPlan :=
      indexDp.data.length < 80 ∨
      (¬strIncludes indexDp "follow-up" ∧ ¬strIncludes indexDp "follow up")
    if (hasNoPlan ∨ minimalPlan) ∧ pair.daysBetween ≤ 30 then
      some { ruleId := "RULE-RA-DOC-001", category := .DOCUMENTATION_GAP,
             severity := .Medium, financialImpact := -(pair.readmitBilledAmount * 0.2) }
    else none

/-- `ReadmissionRule` of `readmission-rules.ts` (display name omitted). -/
structure ReadmissionRule where
  id : String
  category : RACategory
  check : ReadmissionPair → Option ReadmissionFinding

/-- `ALL_READMISSION_RULES`, in the declared order. -/
def ALL_READMISSION_RULES : List ReadmissionRule :=
  [⟨"RULE-RA-CR-001", .CLINICAL_RELATEDNESS, checkSamePrincipalDiagnosis⟩,
   ⟨"RULE-RA-CR-002", .CLINICAL_RELATEDNESS, checkComplicationOfIndexTreatment⟩,
   ⟨"RULE-RA-CR-003", .CLINICAL_RELATEDNESS, checkProgressionOfDisease⟩,
   ⟨"RULE-RA-DA-001", .DISCHARGE_ADEQUACY, checkPrematureDischarge⟩,
   ⟨"RULE-RA-DA-002", .DISCHARGE_ADEQUACY, checkAmaDischargeReadmission⟩,
   ⟨"RULE-RA-DA-003", .DISCHARGE_ADEQUACY, checkInadequateFollowUp⟩,
   ⟨"RULE-RA-TP-001", .TIMING_PATTERN, checkSameDayTransfer⟩,
   ⟨"RULE-RA-TP-002", .TIMING_PATTERN, checkRapidReadmission⟩,
   ⟨"RULE-RA-DB-001", .DRG_BUNDLING, checkIdenticalDrgBundling⟩,
   ⟨"RULE-RA-QC-001", .QUALITY_CONCERN, checkRevolvingDoorPattern⟩,
   ⟨"RULE-RA-QC-002", .QUALITY_CONCERN, checkSurgicalComplicationQuality⟩,
   ⟨"RULE-RA-DOC-001", .DOCUMENTATION_GAP, checkMissingDischargePlan⟩]

/-- `runAllReadmissionRules`. -/
def runAllReadmissionRules (pair : ReadmissionPair) : List ReadmissionFinding :=
  ALL_READMISSION_RULES.filterMap (fun rule => rule.check pair)

/-- `RuleBasedReadmissionBackend.hasComplicationFindings`. -/
def hasComplicationFindings (findings : List ReadmissionFinding) : Bool :=
  findings.any (fun f => f.ruleId == "RULE-RA-CR-002" || f.ruleId == "RULE-RA-QC-002")

/-- `RuleBasedReadmissionBackend.assessRelatedness`. -/
def assessRelatedness (pair : ReadmissionPair)
    (findings : List ReadmissionFinding) : Relatedness :=
  if pair.isPlannedReadmission ∧ ¬hasComplicationFindings findings then .NotRelated
  else
    let crFindings := findings.filter (fun f => f.category == .CLINICAL_RELATEDNESS)
    let hasCritical := crFindings.any (fun f => f.severity == .Critical)
    let hasHigh := crFindings.any (fun f => f.severity == .High)
    let sameDxCategory := samePrincipalDxCategory pair
    if hasCritical ∨ (sameDxCategory ∧ pair.daysBetween ≤ 3) then .DefinitelyRelated
    else if hasHigh ∨ (sameDxCategory ∧ pair.daysBetween ≤ 14) then .LikelyRelated
    else if 0 < crFindings.length ∨ pair.daysBetween ≤ 7 then .PossiblyRelated
    else .NotRelated

/-- `RuleBasedReadmissionBackend.determineStatus`. -/
def raDetermineStatus (pair : ReadmissionPair) (findings : List ReadmissionFinding)
    (relatedness : Relatedness) : ReadmissionReviewStatus :=
  if pair.isPlannedReadmission ∧ ¬hasComplicationFindings findings then .Planned
  else if findings.any (fun f => f.category == .DRG_BUNDLING) ∨
      findings.any (fun f => f.category == .TIMING_PATTERN && f.severity == .Critical) then
    .BundleCandidate
  else if findings.any (fun f => f.category == .DISCHARGE_ADEQUACY) ∨
      findings.any (fun f => f.category == .QUALITY_CONCERN) then
    .PotentiallyPreventable
  else if relatedness = .DefinitelyRelated ∨ relatedness = .LikelyRelated then
    .ClinicallyRelated
  else if findings.length = 0 ∨ relatedness = .NotRelated then .NotRelated
  else .ClinicallyRelated

/-- `RuleBasedReadmissionBackend.calculatePreventability`. -/
def calculatePreventability (pair : ReadmissionPair)
    (findings : List ReadmissionFinding) : ℚ :=
  if pair.isPlannedReadmission then 0
  else
    let score : ℚ := 10
    let score := score +
      (if pair.daysBetween ≤ 3 then 25
       else if pair.daysBetween ≤ 7 then 15
       else if pair.daysBetween ≤ 14 then 10 else 0)
    let score := score + (if samePrincipalDxCategory pair then 20 else 0)
    let score := score +
      ((findings.filter (fun f => f.category == .DISCHARGE_ADEQUACY)).length : ℚ) * 15
    let score := score +
      ((findings.filter (fun f => f.category == .QUALITY_CONCERN)).length : ℚ) * 10
    let score := score + (if pair.indexDischargeStatus = .AMA then 15 else 0)
    min 100 score

/-- `RuleBasedReadmissionBackend.calculateBundleSavings`. -/
def calculateBundleSavings (pair : ReadmissionPair)
    (status : ReadmissionReviewStatus) : ℚ :=
  if status = .BundleCandidate then pair.readmitBilledAmount
  else if status = .PotentiallyPreventable then jsRound (pair.readmitBilledAmount * 0.5)
  else 0

/-- `RuleBasedReadmissionBackend.calculateHRRPRisk`. -/
def calculateHRRPRisk (pair : ReadmissionPair)
    (findings : List ReadmissionFinding) : ℚ :=
  if pair.hrrpTargetCondition = none then 0
  else if pair.isPlannedReadmission then 5
  else if 30 < pair.daysBetween then 0
  else
    let risk : ℚ := 30
    let risk := risk + (if samePrincipalDxCategory pair then 25 else 0)
    let risk := risk +
      (if pair.daysBetween ≤ 7 then 20 else if pair.daysBetween ≤ 14 then 10 else 0)
    let risk := risk +
      ((findings.filter (fun f => f.severity == .Critical)).length : ℚ) * 10
    min 100 risk

/-- `ReadmissionBackendResult` (summary omitted). -/
structure ReadmissionBackendResult where
  reviewStatus : ReadmissionReviewStatus
  clinicalRelatedness : Relatedness
  preventabilityScore : ℚ
  confidence : ℚ
  bundleSavings : ℚ
  hrrpPenaltyRisk : ℚ
  findings : List ReadmissionFinding

/-- `RuleBasedReadmissionBackend.evaluate` (the prompt argument is ignored
by the source and omitted here). -/
def raEvaluate (pair : ReadmissionPair) : ReadmissionBackendResult :=
  let findings := runAllReadmissionRules pair
  let clinicalRelatedness := assessRelatedness pair findings
  let reviewStatus := raDetermineStatus pair findings clinicalRelatedness
  let preventabilityScore := calculatePreventability pair findings
  let bundleSavings := calculateBundleSavings pair reviewStatus
  let hrrpPenaltyRisk := calculateHRRPRisk pair findings
  let confidence : ℚ :=
    if findings.length = 0 then 90 else max 55 (88 - (findings.length : ℚ) * 6)
  ⟨reviewStatus, clinicalRelatedness, preventabilityScore, confidence,
   bundleSavings, hrrpPenaltyRisk, findings⟩

/-- `ReadmissionAgent.reviewPair`: the unified risk score layered on top
of the backend result. -/
def raRiskScore (pair : ReadmissionPair) : ℚ :=
  let result := raEvaluate pair
  let findingsScore := (result.findings.map (fun f => severityPoints f.severity)).sum
  min 100 (jsRound (findingsScore * 0.3 + result.preventabilityScore * 0.4 +
    result.hrrpPenaltyRisk * 0.3))

/-! ## Outlier-detection vertical (`outlier-detection-rules.ts`,
`outlier-detection-agent.ts`) -/

/-- `Claim` of `src/types.ts`, restricted to the fields the outlier rules
read. `serviceDate` holds the epoch timestamp in milliseconds of the
original service-date string (the code uses it only through
`new Date(s).getTime()`). -/
structure Claim where
  id : String
  providerId : String
  beneficiaryId : String
  serviceDate : ℚ
  procedureCode : String
  amount : ℚ
  riskScore : ℚ
deriving DecidableEq

/-- `OutlierFinding` (rule name, description, recommendation and the
statistical-detail string omitted). -/
structure OutlierFinding where
  ruleId : String
  severity : Severity
  affectedClaimIds : List String
  estimatedImpact : ℚ
deriving DecidableEq

/-- The `mean` helper of `outlier-detection-rules.ts`. -/
def mean (values : List ℚ) : ℚ :=
  if values.length = 0 then 0 else values.sum / values.length

/-- The sample variance computed inside `stdDev` (Bessel's correction:
the sum of squared deviations divided by `n − 1`). -/
def sampleVar (values : List ℚ) : ℚ :=
  (values.map (fun v => (v - mean values) ^ 2)).sum / ((values.length : ℚ) - 1)

/-- The `stdDev` helper: `0` for fewer than two values, otherwise the
square root of the Bessel-corrected sample variance. -/
noncomputable def stdDev (values : List ℚ) : ℝ :=
  if values.length < 2 then 0 else Real.sqrt (sampleVar values)

open scoped Classical in
/-- The `zScore` helper: `0` whenever the standard deviation is `0`. -/
noncomputable def zScore (value m : ℚ) (sd : ℝ) : ℝ :=
  if sd = 0 then 0 else ((value - m : ℚ) : ℝ) / sd

/-- The `daysBetween` helper of `outlier-detection-rules.ts` on epoch
milliseconds: `|a − b| / (1000·60·60·24)`. -/
def daysApart (a b : ℚ) : ℚ := |a - b| / (1000 * 60 * 60 * 24)

/-- The `isRoundNumber` helper: multiples of $100 or $50 under the JS
remainder. -/
def isRoundNumber (amount : ℚ) : Bool :=
  decide (jsRem amount 100 = 0) || decide (jsRem amount 50 = 0)

/-- JS `Array.prototype.push` guarded by `!list.includes(x)`. -/
def pushUnique (l : List String) (x : String) : List String :=
  if x ∈ l then l else l ++ [x]

/-- First-occurrence deduplication, the order-preserving semantics of
JS `[...new Set(xs)]`. -/
def dedupAux (seen : List String) : List String → List String
  | [] => []
  | x :: xs => if seen.contains x then dedupAux seen xs else x :: dedupAux (x :: seen) xs

/-- JS `[...new Set(xs)]`. -/
def dedupFirst (l : List String) : List String := dedupAux [] l

/-- The pair condition of `detectDuplicateBilling`: same beneficiary, same
procedure code, service dates at most 7 days apart. -/
def dupPred (a b : Claim) : Bool :=
  a.beneficiaryId == b.beneficiaryId && a.procedureCode == b.procedureCode &&
    decide (daysApart a.serviceDate b.serviceDate ≤ 7)

/-- Inner loop (`j`) of `detectDuplicateBilling` for a fixed claim `a`. -/
def dupInner (a : Claim) (rest : List Claim) (acc : List String) : List String :=
  rest.foldl
    (fun acc2 b => if dupPred a b then pushUnique (pushUnique acc2 a.id) b.id else acc2)
    acc

/-- Nested pair loop of `detectDuplicateBilling`: for every `i < j` with
the pair condition, push both ids without duplicates. -/
def dupIds : List Claim → List String → List String
  | [], acc => acc
  | a :: rest, acc => dupIds rest (dupInner a rest acc)

/-- Verification-layer characterization: `x` is an id pushed by the nested
pair loop, i.e. the id of one member of some qualifying pair of distinct
positions of the list. -/
def dupMem (x : String) : List Claim → Prop
  | [] => False
  | a :: rest =>
    (∃ b ∈ rest, dupPred a b = true ∧ (x = a.id ∨ x = b.id)) ∨ dupMem x rest

/-- Rule 1, `detectDuplicateBilling`. -/
def detectDuplicateBilling (pid : String) (claims : List Claim) : Option OutlierFinding :=
  let providerClaims := claims.filter (fun c => c.providerId == pid)
  let duplicates := dupIds providerClaims []
  if duplicates.length = 0 then none
  else
    let duplicateClaims := providerClaims.filter (fun c => duplicates.contains c.id)
    some { ruleId := "DUPLICATE_BILLING",
           severity := if 4 ≤ duplicates.length then .Critical else .High,
           affectedClaimIds := duplicates,
           estimatedImpact := (duplicateClaims.map (·.amount)).sum }

open scoped Classical in
/-- Rule 2, `detectHighFrequencyBilling`. -/
noncomputable def detectHighFrequencyBilling (pid : String) (claims : List Claim) :
    Option OutlierFinding :=
  let allProviders := dedupFirst (claims.map (·.providerId))
  if allProviders.length < 3 then none
  else
    let providerCounts :=
      allProviders.map (fun p => (p, (claims.filter (fun c => c.providerId == p)).length))
    let counts : List ℚ := providerCounts.map (fun pc => (pc.2 : ℚ))
    let m := mean counts
    let sd := stdDev counts
    let providerCount : ℚ :=
      match providerCounts.find? (fun pc => pc.1 == pid) with
      | some pc => (pc.2 : ℚ)
      | none => 0
    let z := zScore providerCount m sd
    if z ≤ 2 then none
    else
      let providerClaims := claims.filter (fun c => c.providerId == pid)
      some { ruleId := "HIGH_FREQUENCY_BILLING",
             severity := if 3 < z then .Critical else .High,
             affectedClaimIds := providerClaims.map (·.id),
             estimatedImpact := (providerClaims.map (·.amount)).sum }

open scoped Classical in
/-- Loop body of `detectAmountOutlier` over one procedure code, carrying
the accumulated `(outlierClaims, totalExcess)` pair; the `flaggedCodes`
description strings of the source are presentation-only and omitted. -/
noncomputable def amountOutlierStep (pid : String) (claims providerClaims : List Claim)
    (acc : List String × ℚ) (code : String) : List String × ℚ :=
  let allForCode := claims.filter (fun c => c.procedureCode == code)
  if allForCode.length < 4 then acc
  else
    let provForCode := providerClaims.filter (fun c => c.procedureCode == code)
    if provForCode.length = 0 then acc
    else
      let peerAmounts := (allForCode.filter (fun c => c.providerId != pid)).map (·.amount)
      if peerAmounts.length < 3 then acc
      else
        let m := mean peerAmounts
        let sd := stdDev peerAmounts
        let provAvg := mean (provForCode.map (·.amount))
        let z := zScore provAvg m sd
        if 2.5 < z then
          (provForCode.foldl (fun ids c => pushUnique ids c.id) acc.1,
           acc.2 + (provAvg - m) * provForCode.length)
        else acc

/-- Rule 3, `detectAmountOutlier`. -/
noncomputable def detectAmountOutlier (pid : String) (claims : List Claim) :
    Option OutlierFinding :=
  let providerClaims := claims.filter (fun c => c.providerId == pid)
  if providerClaims.length < 3 then none
  else
    let allProcedureCodes := dedupFirst (claims.map (·.procedureCode))
    let res := allProcedureCodes.foldl (amountOutlierStep pid claims providerClaims) ([], 0)
    if res.1.length = 0 then none
    else
      some { ruleId := "AMOUNT_STATISTICAL_OUTLIER",
             severity := if 5000 < res.2 then .Critical else .High,
             affectedClaimIds := res.1,
             estimatedImpact := jsRound res.2 }

open scoped Classical in
/-- Rule 4, `detectProviderAmountPattern`. -/
noncomputable def detectProviderAmountPattern (pid : String) (claims : List Claim) :
    Option OutlierFinding :=
  let allProviders := dedupFirst (claims.map (·.providerId))
  if allProviders.length < 3 then none
  else
    let providerAvgs := allProviders.map (fun p =>
      let c := claims.filter (fun x => x.providerId == p)
      (p, mean (c.map (·.amount)), c.length))
    let avgs := (providerAvgs.filter (fun t => 3 ≤ t.2.2)).map (fun t => t.2.1)
    if avgs.length < 3 then none
    else
      let m := mean avgs
      let sd := stdDev avgs
      match providerAvgs.find? (fun t => t.1 == pid) with
      | none => none
      | some t =>
        if t.2.2 < 3 then none
        else
          let z := zScore t.2.1 m sd
          if z ≤ 2 then none
          else
            let providerClaims := claims.filter (fun c => c.providerId == pid)
            some { ruleId := "PROVIDER_AMOUNT_PATTERN",
                   severity := if 3 < z then .Critical else .High,
                   affectedClaimIds := providerClaims.map (·.id),
                   estimatedImpact := jsRound ((t.2.1 - m) * t.2.2) }

open scoped Classical in
/-- Rule 5, `detectBeneficiaryChurning`; `benCount bid` is the final value
of the `benCounts` record of the source at key `bid`, and the `?? 0`
fallback is unreachable because churning candidates come from the keys. -/
noncomputable def detectBeneficiaryChurning (pid : String) (claims : List Claim) :
    Option OutlierFinding :=
  let providerClaims := claims.filter (fun c => c.providerId == pid)
  if providerClaims.length < 3 then none
  else
    let benCount := fun bid => (claims.filter (fun c => c.beneficiaryId == bid)).length
    let benIds := dedupFirst (claims.map (·.beneficiaryId))
    let counts : List ℚ := benIds.map (fun bid => (benCount bid : ℚ))
    let m := mean counts
    let sd := stdDev counts
    let provBenIds := dedupFirst (providerClaims.map (·.beneficiaryId))
    let churningBens :=
      provBenIds.filter (fun bid => decide (2 < zScore (benCount bid : ℚ) m sd))
    if churningBens.length = 0 then none
    else
      let affectedClaims :=
        (providerClaims.filter (fun c => churningBens.contains c.beneficiaryId)).map (·.id)
      some { ruleId := "BENEFICIARY_CHURNING",
             severity := if 3 ≤ churningBens.length then .High else .Medium,
             affectedClaimIds := affectedClaims,
             estimatedImpact := affectedClaims.foldl
               (fun s i => s +
                 (match providerClaims.find? (fun c => c.id == i) with
                  | some c => c.amount
                  | none => 0)) 0 }

/-- Rule 6, `detectRoundNumberBilling`. -/
def detectRoundNumberBilling (pid : String) (claims : List Claim) :
    Option OutlierFinding :=
  let providerClaims := claims.filter (fun c => c.providerId == pid)
  if providerClaims.length < 5 then none
  else
    let roundClaims := providerClaims.filter (fun c => isRoundNumber c.amount)
    let ratio : ℚ := (roundClaims.length : ℚ) / (providerClaims.length : ℚ)
    if ratio ≤ 0.5 then none
    else
      some { ruleId := "ROUND_NUMBER_BILLING",
             severity := if 0.8 < ratio then .High else .Medium,
             affectedClaimIds := roundClaims.map (·.id),
             estimatedImpact := (roundClaims.map (·.amount)).sum }

/-- Rule 7, `detectRiskScoreConcentration`. -/
def detectRiskScoreConcentration (pid : String) (claims : List Claim) :
    Option OutlierFinding :=
  let providerClaims := claims.filter (fun c => c.providerId == pid)
  if providerClaims.length < 4 then none
  else
    let highRisk := providerClaims.filter (fun c => decide (70 ≤ c.riskScore))
    let ratio : ℚ := (highRisk.length : ℚ) / (providerClaims.length : ℚ)
    if ratio ≤ 0.6 then none
    else
      some { ruleId := "RISK_SCORE_CONCENTRATION",
             severity := if 0.8 < ratio then .Critical else .High,
             affectedClaimIds := highRisk.map (·.id),
             estimatedImpact := (highRisk.map (·.amount)).sum }

/-- `runOutlierRules`: all seven rules in the declared order, keeping the
non-null results. -/
noncomputable def runOutlierRules (pid : String) (claims : List Claim) :
    List OutlierFinding :=
  [detectDuplicateBilling pid claims,
   detectHighFrequencyBilling pid claims,
   detectAmountOutlier pid claims,
   detectProviderAmountPattern pid claims,
   detectBeneficiaryChurning pid claims,
   detectRoundNumberBilling pid claims,
   detectRiskScoreConcentration pid claims].filterMap id

/-- The `SEVERITY_WEIGHTS` table of `outlier-detection-agent.ts` (the
`?? 0` fallback of the source is unreachable for the closed severity
vocabulary). -/
def SEVERITY_WEIGHTS : Severity → ℚ
  | .Critical => 30
  | .High => 20
  | .Medium => 10
  | .Low => 4

/-- `RuleBasedOutlierBackend.analyze` composed with
`OutlierDetectionAgent.analyzeProvider`: the provider risk score. -/
noncomputable def outlierRiskScore (pid : String) (claims : List Claim) : ℚ :=
  let findings := runOutlierRules pid claims
  let providerClaims := claims.filter (fun c => c.providerId == pid)
  let severityScore := (findings.map (fun f => SEVERITY_WEIGHTS f.severity)).sum
  let totalExposure := (findings.map (·.estimatedImpact)).sum
  let totalBilled := (providerClaims.map (·.amount)).sum
  let exposureShare := if 0 < totalBilled then totalExposure / totalBilled else 0
  let exposureScore := min 40 (jsRound (exposureShare * 40))
  min 100 (severityScore + exposureScore)

/-! ## Concrete entities used by witnesses and counterexamples -/

/-- A DRG claim outside the override table whose assigned DRG is 066;
empty clinical notes, no secondary diagnoses: no DRG rule fires. -/
def drgClaim066 : DRGClaim :=
  { id := "DRG-099", assignedDRG := "066",
    assignedDRGDescription := "Intracranial Hemorrhage or Cerebral Infarction w/o CC/MCC",
    assignedDRGWeight := 1.0968, billedAmount := 9200,
    primaryDiagnosis := ⟨"I63.9", false, false⟩, secondaryDiagnoses := [],
    clinicalNotes := "" }

/-- A DRG claim on which exactly one rule (`RULE-RESP-003`, category
UPCODING) fires: status asthmaticus coded with empty notes. -/
def drgUp : DRGClaim :=
  { id := "DRG-098", assignedDRG := "202",
    assignedDRGDescription := "Bronchitis & Asthma w CC/MCC",
    assignedDRGWeight := 1.0290, billedAmount := 7000,
    primaryDiagnosis := ⟨"J46", false, false⟩, secondaryDiagnoses := [],
    clinicalNotes := "" }

/-- Five claims of one provider, four of which have round amounts
(multiples of $50): the round-number ratio is exactly 0.8. -/
def c2Claims : List Claim :=
  [⟨"CLM-1", "P1", "B1", 0, "PC1", 100, 0⟩,
   ⟨"CLM-2", "P1", "B2", 86400000, "PC2", 150, 0⟩,
   ⟨"CLM-3", "P1", "B3", 172800000, "PC3", 200, 0⟩,
   ⟨"CLM-4", "P1", "B4", 259200000, "PC4", 300, 0⟩,
   ⟨"CLM-5", "P1", "B5", 345600000, "PC5", 123, 0⟩]

/-- A medical-necessity claim with stable vitals, no abnormal labs and no
hospital-level services: `RULE-MN-SI-001` and `RULE-MN-IS-001` both fire. -/
def mnClaimC1 : MedNecessityClaim :=
  { id := "MN-100", admissionType := .Emergency, dischargeStatus := .Home,
    lengthOfStay := 3, billedAmount := 1000, clinicalNotes := "",
    admissionVitals := ⟨"120/80", 80, 98.6, 16, 98⟩,
    admissionLabValues := [], treatmentsProvided := [],
    ivMedicationsRequired := false, icuAdmission := false,
    surgicalProcedure := false, telemetryRequired := false,
    oxygenRequired := false, isolationRequired := false,
    medNecessityStatus := .Pending }

/-- A DRG claim on which no rule fires. -/
def drgClean : DRGClaim :=
  { id := "DRG-097", assignedDRG := "304",
    assignedDRGDescription := "Hypertension w/o MCC",
    assignedDRGWeight := 0.6542, billedAmount := 4100,
    primaryDiagnosis := ⟨"I10", false, false⟩, secondaryDiagnoses := [],
    clinicalNotes := "" }

/-- A medical-necessity claim (ICU admission, quiet notes) on which no
rule fires. -/
def mnClean : MedNecessityClaim :=
  { id := "MN-101", admissionType := .Emergency, dischargeStatus := .Home,
    lengthOfStay := 4, billedAmount := 18000, clinicalNotes := "",
    admissionVitals := ⟨"120/80", 80, 98.6, 16, 98⟩,
    admissionLabValues := [], treatmentsProvided := [],
    ivMedicationsRequired := false, icuAdmission := true,
    surgicalProcedure := false, telemetryRequired := false,
    oxygenRequired := false, isolationRequired := false,
    medNecessityStatus := .Pending }

/-- A non-planned readmission pair on which no rule fires. -/
def pairCleanNP : ReadmissionPair :=
  { id := "RA-001", indexAdmissionType := .Emergency,
    indexDischargeStatus := .Home, indexLengthOfStay := 4,
    indexDRG := "291", indexBilledAmount := 10000,
    indexPrimaryDiagnosis := ⟨"I50.33", false, false⟩,
    indexSecondaryDiagnoses := [], indexClinicalNotes := "",
    indexDischargePlan := some "Comprehensive discharge plan with follow-up appointment scheduled in one week; medication reconciliation completed and documented.",
    readmitDRG := "470", readmitBilledAmount := 12000,
    readmitPrimaryDiagnosis := ⟨"J18.9", false, false⟩,
    readmitSecondaryDiagnoses := [], readmitClinicalNotes := "",
    daysBetween := 20, sameFacility := true, combinedBilledAmount := 22000,
    hrrpTargetCondition := none, isPlannedReadmission := false }

/-- A planned readmission pair on which no rule fires. -/
def pairPlanned : ReadmissionPair :=
  { id := "RA-002", indexAdmissionType := .Emergency,
    indexDischargeStatus := .Home, indexLengthOfStay := 4,
    indexDRG := "291", indexBilledAmount := 10000,
    indexPrimaryDiagnosis := ⟨"I50.33", false, false⟩,
    indexSecondaryDiagnoses := [], indexClinicalNotes := "",
    indexDischargePlan := none,
    readmitDRG := "470", readmitBilledAmount := 12000,
    readmitPrimaryDiagnosis := ⟨"J18.9", false, false⟩,
    readmitSecondaryDiagnoses := [], readmitClinicalNotes := "",
    daysBetween := 20, sameFacility := true, combinedBilledAmount := 22000,
    hrrpTargetCondition := none, isPlannedReadmission := true }

/-- A duplicate pair: same provider, beneficiary and procedure code,
service dates three days apart. -/
def cDupA : Claim := ⟨"DUP-A", "P7", "B9", 0, "X1", 100, 0⟩

/-- Second member of the duplicate pair, see `cDupA`. -/
def cDupB : Claim := ⟨"DUP-B", "P7", "B9", 259200000, "X1", 120, 0⟩

/-- Four claims of one provider: three carry risk score 100, so the
risk-score-concentration rule fires on them, and the first has a large
negative amount, which drives the estimated impact — and with it the
provider risk score — negative. -/
def cexClaims : List Claim :=
  [⟨"X1", "P1", "B1", 0, "PC1", -10000, 100⟩,
   ⟨"X2", "P1", "B2", 0, "PC2", 1, 100⟩,
   ⟨"X3", "P1", "B3", 0, "PC3", 2, 100⟩,
   ⟨"X4", "P1", "B4", 0, "PC4", 10007, 0⟩]

/-! ## Claim theorems -/

/-- Claim C1: `Does Not Meet` is only returned when a Critical-severity
finding is present together with severity-of-illness and
intensity-of-service both `Not Met`, or admission-criteria `Not Met`; in
particular a claim on which `RULE-MN-SI-001` and `RULE-MN-IS-001` both
fire (severity High) with no Critical and no LEVEL_OF_CARE finding is
classified `Queried`, not `Does Not Meet`. -/
theorem c1_medNecessity_status (claim : MedNecessityClaim)
    (hSI : (checkStableVitalsLowAcuity claim).isSome)
    (hIS : (checkLowIntensityServices claim).isSome)
    (hNoCrit : ∀ f ∈ runAllMedNecessityRules claim, f.severity ≠ .Critical)
    (hNoLoc : ∀ f ∈ runAllMedNecessityRules claim, f.category ≠ .LEVEL_OF_CARE) :
    (mnEvaluate claim).medNecessityStatus = .Queried ∧
    ∀ c : MedNecessityClaim,
      (mnEvaluate c).medNecessityStatus = .DoesNotMeet →
        (∃ f ∈ runAllMedNecessityRules c, f.severity = .Critical) ∧
        ((assessCriteria c (runAllMedNecessityRules c)).severityOfIllness = .NotMet ∧
            (assessCriteria c (runAllMedNecessityRules c)).intensityOfService = .NotMet ∨
          (assessCriteria c (runAllMedNecessityRules c)).admissionCriteria = .NotMet) := by
  have general : ∀ c : MedNecessityClaim,
      (mnEvaluate c).medNecessityStatus = .DoesNotMeet →
        (∃ f ∈ runAllMedNecessityRules c, f.severity = .Critical) ∧
        ((assessCriteria c (runAllMedNecessityRules c)).severityOfIllness = .NotMet ∧
            (assessCriteria c (runAllMedNecessityRules c)).intensityOfService = .NotMet ∨
          (assessCriteria c (runAllMedNecessityRules c)).admissionCriteria = .NotMet) := by
    intro c h
    have hstat : (mnEvaluate c).medNecessityStatus =
        mnDetermineStatus (assessCriteria c (runAllMedNecessityRules c))
          (runAllMedNecessityRules c) := rfl
    rw [hstat] at h
    by_cases hb2 :
      (assessCriteria c (runAllMedNecessityRules c)).severityOfIllness = .NotMet ∧
        (assessCriteria c (runAllMedNecessityRules c)).intensityOfService = .NotMet ∧
        ((runAllMedNecessityRules c).any (fun f => f.severity == Severity.Critical)) = true
    · exact ⟨by simpa [List.any_eq_true] using hb2.2.2, Or.inl ⟨hb2.1, hb2.2.1⟩⟩
    by_cases hb3 :
      (assessCriteria c (runAllMedNecessityRules c)).admissionCriteria = .NotMet ∧
        ((runAllMedNecessityRules c).any (fun f => f.severity == Severity.Critical)) = true
    · exact ⟨by simpa [List.any_eq_true] using hb3.2, Or.inr hb3.1⟩
    exfalso
    simp only [mnDetermineStatus] at h
    split_ifs at h
  refine ⟨?_, general⟩
  rcases hbp : parseBP claim.admissionVitals.bloodPressure with _ | bp
  · simp [checkStableVitalsLowAcuity, hbp] at hSI
  obtain ⟨f1, hf1⟩ := Option.isSome_iff_exists.mp hSI
  have hf1' := hf1
  simp only [checkStableVitalsLowAcuity, hbp] at hf1
  split_ifs at hf1 with hcond
  obtain ⟨f2, hf2⟩ := Option.isSome_iff_exists.mp hIS
  have hf2' := hf2
  simp only [checkLowIntensityServices] at hf2
  split_ifs at hf2 with hcond2
  have hv1 := Option.some.inj hf1
  have hv2 := Option.some.inj hf2
  subst hv1
  subst hv2
  have hmem1 : (⟨"RULE-MN-SI-001", .SEVERITY_OF_ILLNESS, .High,
      -(claim.billedAmount)⟩ : MedNecessityFinding) ∈ runAllMedNecessityRules claim :=
    List.mem_filterMap.mpr
      ⟨⟨"RULE-MN-SI-001", .SEVERITY_OF_ILLNESS, checkStableVitalsLowAcuity⟩,
        List.Mem.head _, hf1'⟩
  have hmem2 : (⟨"RULE-MN-IS-001", .INTENSITY_OF_SERVICE, .High,
      -(claim.billedAmount)⟩ : MedNecessityFinding) ∈ runAllMedNecessityRules claim :=
    List.mem_filterMap.mpr
      ⟨⟨"RULE-MN-IS-001", .INTENSITY_OF_SERVICE, checkLowIntensityServices⟩,
        List.Mem.tail _ (List.Mem.tail _ (List.Mem.head _)), hf2'⟩
  have hanyCrit : ((runAllMedNecessityRules claim).any
      (fun f => f.severity == Severity.Critical)) = false := by
    rw [List.any_eq_false]
    intro f hf
    simp only [beq_iff_eq]
    exact hNoCrit f hf
  have hlocnil : (runAllMedNecessityRules claim).filter
      (fun f => f.category == MNCategory.LEVEL_OF_CARE) = [] := by
    rw [List.filter_eq_nil_iff]
    intro f hf
    simp only [beq_iff_eq]
    exact hNoLoc f hf
  have hlabs : countAbnormalLabs claim ≤ 1 := hcond.2.1
  have hsiPos : 0 < ((runAllMedNecessityRules claim).filter
      (fun f => f.category == MNCategory.SEVERITY_OF_ILLNESS)).length :=
    List.length_pos.mpr (List.ne_nil_of_mem (List.mem_filter.mpr ⟨hmem1, rfl⟩))
  have hisPos : 0 < ((runAllMedNecessityRules claim).filter
      (fun f => f.category == MNCategory.INTENSITY_OF_SERVICE)).length :=
    List.length_pos.mpr (List.ne_nil_of_mem (List.mem_filter.mpr ⟨hmem2, rfl⟩))
  have hsi : (assessCriteria claim (runAllMedNecessityRules claim)).severityOfIllness
      = .NotMet := by
    show assessSI claim (runAllMedNecessityRules claim) = .NotMet
    simp only [assessSI]
    rw [if_neg (fun hc => absurd hc.2 (by omega)), if_pos hsiPos]
  have hhi : ¬(claim.icuAdmission || claim.surgicalProcedure ||
      (claim.ivMedicationsRequired && claim.telemetryRequired) : Bool) := by
    simp [hcond2.1, hcond2.2.1, hcond2.2.2.1]
  have his : (assessCriteria claim (runAllMedNecessityRules claim)).intensityOfService
      = .NotMet := by
    show assessIS claim (runAllMedNecessityRules claim) = .NotMet
    simp only [assessIS]
    rw [if_neg hhi, if_pos hisPos]
  have hstat : (mnEvaluate claim).medNecessityStatus =
      mnDetermineStatus (assessCriteria claim (runAllMedNecessityRules claim))
        (runAllMedNecessityRules claim) := rfl
  rw [hstat]
  simp only [mnDetermineStatus]
  rw [if_neg (fun hc => by rw [hsi] at hc; exact absurd hc.1 (by decide)),
    if_neg (fun hc => by rw [hanyCrit] at hc; exact absurd hc.2.2 (by decide)),
    if_neg (fun hc => by rw [hanyCrit] at hc; exact absurd hc.2 (by decide)),
    if_neg (by rw [hlocnil]; simp),
    if_pos (List.length_pos.mpr (List.ne_nil_of_mem hmem1))]

/-- Witness for C1 at the concrete claim `mnClaimC1`. -/
theorem c1_medNecessity_status_witness :
    (mnEvaluate mnClaimC1).medNecessityStatus = .Queried :=
  (c1_medNecessity_status mnClaimC1 (by decide) (by decide) (by decide) (by decide)).1

/-- Counterexample for C5 as stated: a planned readmission pair on which
zero rules fire is classified `Planned`, not `Not Related`. -/
theorem c5_clean_status_counterexample :
    runAllReadmissionRules pairPlanned = [] ∧
    (raEvaluate pairPlanned).reviewStatus = .Planned ∧
    (raEvaluate pairPlanned).reviewStatus ≠ .NotRelated := by decide

/-- Claim C5 amended: an entity with zero rule matches receives the clean
terminal status and ceiling confidence of its vertical — DRG `Validated`
with confidence 95, medical necessity `Meets Criteria` with confidence 92,
readmission confidence 90 with status `Not Related` for pairs not flagged
as planned; a pair with `isPlannedReadmission` set and zero findings is
classified `Planned` instead. -/
theorem c5_clean_status_amended :
    (∀ claim : DRGClaim, runAllDRGRules claim = [] →
      (drgValidate claim).validationStatus = .Validated ∧
      (drgValidate claim).confidence = 95) ∧
    (∀ claim : MedNecessityClaim, runAllMedNecessityRules claim = [] →
      (mnEvaluate claim).medNecessityStatus = .MeetsCriteria ∧
      (mnEvaluate claim).confidence = 92) ∧
    (∀ pair : ReadmissionPair, runAllReadmissionRules pair = [] →
      (raEvaluate pair).confidence = 90 ∧
      (pair.isPlannedReadmission = false →
        (raEvaluate pair).reviewStatus = .NotRelated) ∧
      (pair.isPlannedReadmission = true →
        (raEvaluate pair).reviewStatus = .Planned)) := by
  refine ⟨fun claim h => ⟨?_, ?_⟩, fun claim h => ⟨?_, ?_⟩, fun pair h => ⟨?_, ?_, ?_⟩⟩
  · have hs : (drgValidate claim).validationStatus =
        determineValidationStatus (runAllDRGRules claim) := rfl
    rw [hs, h]
    simp [determineValidationStatus]
  · have hc : (drgValidate claim).confidence =
        (if (runAllDRGRules claim).length = 0 then (95 : ℚ)
         else max 60 (90 - ((runAllDRGRules claim).length : ℚ) * 7)) := rfl
    rw [hc, h]
    simp
  · have hs : (mnEvaluate claim).medNecessityStatus =
        mnDetermineStatus (assessCriteria claim (runAllMedNecessityRules claim))
          (runAllMedNecessityRules claim) := rfl
    rw [hs, h]
    simp [mnDetermineStatus]
  · have hc : (mnEvaluate claim).confidence =
        (if (runAllMedNecessityRules claim).length = 0 then (92 : ℚ)
         else max 55 (88 - ((runAllMedNecessityRules claim).length : ℚ) * 8)) := rfl
    rw [hc, h]
    simp
  · have hc : (raEvaluate pair).confidence =
        (if (runAllReadmissionRules pair).length = 0 then (90 : ℚ)
         else max 55 (88 - ((runAllReadmissionRules pair).length : ℚ) * 6)) := rfl
    rw [hc, h]
    simp
  · intro hp
    have hcr : checkSamePrincipalDiagnosis pair = none := by
      cases hc : checkSamePrincipalDiagnosis pair with
      | none => rfl
      | some f =>
        have hmem : f ∈ runAllReadmissionRules pair :=
          List.mem_filterMap.mpr
            ⟨⟨"RULE-RA-CR-001", .CLINICAL_RELATEDNESS, checkSamePrincipalDiagnosis⟩,
              List.Mem.head _, hc⟩
        rw [h] at hmem
        exact absurd hmem (by simp)
    have hsame : samePrincipalDxCategory pair = false := by
      by_cases hs : samePrincipalDxCategory pair
      · exfalso
        simp [checkSamePrincipalDiagnosis, hs, hp] at hcr
      · exact Bool.not_eq_true _ ▸ hs
    have hstat : (raEvaluate pair).reviewStatus =
        raDetermineStatus pair (runAllReadmissionRules pair)
          (assessRelatedness pair (runAllReadmissionRules pair)) := rfl
    rw [hstat, h]
    have hrel : assessRelatedness pair [] = .PossiblyRelated ∨
        assessRelatedness pair [] = .NotRelated := by
      simp only [assessRelatedness, hsame, hp]
      norm_num
      by_cases hd : pair.daysBetween ≤ 7
      · exact Or.inl fun h7 => absurd hd (by omega)
      · exact Or.inr fun h7 => absurd h7 hd
    rcases hrel with hr | hr <;>
      simp [raDetermineStatus, hp, hr]
  · intro hp
    have hstat : (raEvaluate pair).reviewStatus =
        raDetermineStatus pair (runAllReadmissionRules pair)
          (assessRelatedness pair (runAllReadmissionRules pair)) := rfl
    rw [hstat, h]
    simp [raDetermineStatus, hasComplicationFindings, hp]

set_option maxRecDepth 4000 in
/-- Witness for C5 (amended) at four concrete entities with zero rule
matches. -/
theorem c5_clean_status_amended_witness :
    (drgValidate drgClean).validationStatus = .Validated ∧
    (drgValidate drgClean).confidence = 95 ∧
    (mnEvaluate mnClean).medNecessityStatus = .MeetsCriteria ∧
    (mnEvaluate mnClean).confidence = 92 ∧
    (raEvaluate pairCleanNP).reviewStatus = .NotRelated ∧
    (raEvaluate pairCleanNP).confidence = 90 ∧
    (raEvaluate pairPlanned).reviewStatus = .Planned := by
  obtain ⟨hd, hm, hr⟩ := c5_clean_status_amended
  obtain ⟨hd1, hd2⟩ := hd drgClean (by decide)
  obtain ⟨hm1, hm2⟩ := hm mnClean (by decide)
  obtain ⟨hr1, hr2, -⟩ := hr pairCleanNP (by decide)
  obtain ⟨-, -, hr3⟩ := hr pairPlanned (by decide)
  exact ⟨hd1, hd2, hm1, hm2, hr2 (by decide), hr1, hr3 (by decide)⟩

/-- Claim C9: the rapid-readmission rule `RULE-RA-TP-002` fires exactly
when `0 < daysBetween ≤ 3` and the pair is not a planned readmission; in
particular a same-day readmission (`daysBetween = 0`) never produces a
finding from this rule. -/
theorem c9_rapid_readmission_iff (pair : ReadmissionPair) :
    (checkRapidReadmission pair).isSome ↔
      (0 < pair.daysBetween ∧ pair.daysBetween ≤ 3 ∧
        pair.isPlannedReadmission = false) := by
  unfold checkRapidReadmission
  split_ifs with h1 h2 h3
  · exact iff_of_false (by simp) (by rintro ⟨-, hd, -⟩; omega)
  · exact iff_of_false (by simp) (by rintro ⟨hd, -, -⟩; omega)
  · exact iff_of_false (by simp)
      (by rintro ⟨-, -, hp⟩; rw [h3] at hp; exact absurd hp (by decide))
  · exact iff_of_true (by simp) ⟨by omega, by omega, Bool.not_eq_true _ ▸ h3⟩

/-- Claim C8: the shared statistical helpers are total with the guards of
the source: `stdDev` is `0` on samples of fewer than two values and is the
square root of the Bessel-corrected sample variance (division by `n − 1`)
otherwise, and `zScore` is `0` whenever the standard-deviation argument is
`0` (the divisions by zero that would produce NaN/infinity in JS are
exactly the guarded cases). -/
theorem c8_stat_helpers_total :
    (∀ values : List ℚ, values.length < 2 → stdDev values = 0) ∧
    (∀ values : List ℚ, 2 ≤ values.length →
      stdDev values = Real.sqrt
        (((values.map (fun v => (v - values.sum / values.length) ^ 2)).sum /
          ((values.length : ℚ) - 1) : ℚ))) ∧
    (∀ value m : ℚ, zScore value m 0 = 0) := by
  refine ⟨fun values h => by simp [stdDev, h], fun values h => ?_, fun value m => by simp [zScore]⟩
  rw [stdDev, if_neg (by omega)]
  have hm : mean values = values.sum / values.length := by
    rw [mean, if_neg (by omega)]
  rw [sampleVar, hm]

/-- Witness for C8 at concrete samples. -/
theorem c8_stat_helpers_total_witness :
    stdDev [(3 : ℚ)] = 0 ∧
    stdDev [(1 : ℚ), 5] = Real.sqrt ((8 : ℚ)) ∧
    zScore 7 2 0 = 0 := by
  obtain ⟨h1, h2, h3⟩ := c8_stat_helpers_total
  refine ⟨h1 [(3 : ℚ)] (by decide), ?_, h3 7 2⟩
  rw [h2 [(1 : ℚ), 5] (by decide)]
  congr 1

/-- Claim C3: the rule-based DRG backend's derived status is `Upcoded`
exactly when an UPCODING finding is present without a DOWNCODING finding,
`Downcoded` in the mirror case, `Queried` for any other non-empty finding
set, and `Validated` exactly when the finding set is empty. -/
theorem c3_drg_status_characterization (claim : DRGClaim) :
    ((drgValidate claim).validationStatus = .Upcoded ↔
      ((∃ f ∈ runAllDRGRules claim, f.category = .UPCODING) ∧
        ¬∃ f ∈ runAllDRGRules claim, f.category = .DOWNCODING)) ∧
    ((drgValidate claim).validationStatus = .Downcoded ↔
      ((∃ f ∈ runAllDRGRules claim, f.category = .DOWNCODING) ∧
        ¬∃ f ∈ runAllDRGRules claim, f.category = .UPCODING)) ∧
    (runAllDRGRules claim ≠ [] →
      ¬((∃ f ∈ runAllDRGRules claim, f.category = .UPCODING) ∧
        ¬∃ f ∈ runAllDRGRules claim, f.category = .DOWNCODING) →
      ¬((∃ f ∈ runAllDRGRules claim, f.category = .DOWNCODING) ∧
        ¬∃ f ∈ runAllDRGRules claim, f.category = .UPCODING) →
      (drgValidate claim).validationStatus = .Queried) ∧
    ((drgValidate claim).validationStatus = .Validated ↔ runAllDRGRules claim = []) := by
  have hst : (drgValidate claim).validationStatus =
      determineValidationStatus (runAllDRGRules claim) := rfl
  rw [hst]
  generalize runAllDRGRules claim = fs
  have hU : (fs.any (fun f => f.category == DRGCategory.UPCODING) = true) ↔
      ∃ f ∈ fs, f.category = DRGCategory.UPCODING := by
    simp [List.any_eq_true]
  have hD : (fs.any (fun f => f.category == DRGCategory.DOWNCODING) = true) ↔
      ∃ f ∈ fs, f.category = DRGCategory.DOWNCODING := by
    simp [List.any_eq_true]
  by_cases h0 : 0 < fs.length
  · have hne : fs ≠ [] := by
      intro h
      rw [h] at h0
      simp at h0
    by_cases hu : fs.any (fun f => f.category == DRGCategory.UPCODING) = true <;>
      by_cases hd : fs.any (fun f => f.category == DRGCategory.DOWNCODING) = true
    · -- both categories present: Queried
      have hval : determineValidationStatus fs = .Queried := by
        simp only [determineValidationStatus]
        rw [hu, hd, if_pos h0]
        simp
      rw [hval]
      exact ⟨iff_of_false (by decide) fun h => h.2 (hD.mp hd),
        iff_of_false (by decide) fun h => h.2 (hU.mp hu),
        fun _ _ _ => rfl,
        iff_of_false (by decide) hne⟩
    · -- upcoding only
      have hd' : fs.any (fun f => f.category == DRGCategory.DOWNCODING) = false :=
        Bool.not_eq_true _ ▸ hd
      have hval : determineValidationStatus fs = .Upcoded := by
        simp only [determineValidationStatus]
        rw [hu, hd', if_pos h0]
        simp
      rw [hval]
      exact ⟨iff_of_true rfl ⟨hU.mp hu, fun h => hd (hD.mpr h)⟩,
        iff_of_false (by decide) fun h => h.2 (hU.mp hu),
        fun _ hq _ => absurd ⟨hU.mp hu, fun h => hd (hD.mpr h)⟩ hq,
        iff_of_false (by decide) hne⟩
    · -- downcoding only
      have hu' : fs.any (fun f => f.category == DRGCategory.UPCODING) = false :=
        Bool.not_eq_true _ ▸ hu
      have hval : determineValidationStatus fs = .Downcoded := by
        simp only [determineValidationStatus]
        rw [hu', hd, if_pos h0]
        simp
      rw [hval]
      exact ⟨iff_of_false (by decide) fun h => h.2 (hD.mp hd),
        iff_of_true rfl ⟨hD.mp hd, fun h => hu (hU.mpr h)⟩,
        fun _ _ hq => absurd ⟨hD.mp hd, fun h => hu (hU.mpr h)⟩ hq,
        iff_of_false (by decide) hne⟩
    · -- neither category present: Queried
      have hu' : fs.any (fun f => f.category == DRGCategory.UPCODING) = false :=
        Bool.not_eq_true _ ▸ hu
      have hd' : fs.any (fun f => f.category == DRGCategory.DOWNCODING) = false :=
        Bool.not_eq_true _ ▸ hd
      have hval : determineValidationStatus fs = .Queried := by
        simp only [determineValidationStatus]
        rw [hu', hd', if_pos h0]
        simp
      rw [hval]
      exact ⟨iff_of_false (by decide) fun h => hu (hU.mpr h.1),
        iff_of_false (by decide) fun h => hd (hD.mpr h.1),
        fun _ _ _ => rfl,
        iff_of_false (by decide) hne⟩
  · have hnil : fs = [] := by
      cases fs with
      | nil => rfl
      | cons a l => simp at h0
    subst hnil
    simp [determineValidationStatus]

/-- Witness for C3: a claim on which exactly one (UPCODING) rule fires is
classified `Upcoded` by the backend. -/
theorem c3_drg_status_characterization_witness :
    (drgValidate drgUp).validationStatus = .Upcoded :=
  (c3_drg_status_characterization drgUp).1.mpr ⟨by decide, by decide⟩

/-- Claim C7: the orchestrator computes
`expectedReimbursement = round(expectedDRGWeight × 6200)` and
`financialVariance = expectedReimbursement − billedAmount`; the weight
table gives DRG 066 the weight 1.0968, and `round(1.0968 × 6200) = 6800`,
so every claim whose expected DRG is 066 is reimbursed 6800. -/
theorem c7_drg_reimbursement_arithmetic :
    (∀ claim : DRGClaim,
      (drgReviewClaim claim).expectedReimbursement =
        jsRound ((drgValidate claim).expectedDRGWeight * MS_DRG_BASE_RATE) ∧
      (drgReviewClaim claim).financialVariance =
        (drgReviewClaim claim).expectedReimbursement - claim.billedAmount) ∧
    (MS_DRG_WEIGHTS "066").map Prod.fst = some 1.0968 ∧
    jsRound ((1.0968 : ℚ) * 6200) = 6800 ∧
    (∀ claim : DRGClaim, (drgValidate claim).expectedDRG = "066" →
      (drgReviewClaim claim).expectedReimbursement = 6800) := by
  have hround : jsRound ((1.0968 : ℚ) * 6200) = 6800 := by decide
  refine ⟨fun claim => ⟨rfl, rfl⟩, rfl, hround, fun claim h => ?_⟩
  have hw : (drgValidate claim).expectedDRGWeight =
      (match MS_DRG_WEIGHTS ((drgValidate claim).expectedDRG) with
       | some w => w.1
       | none => claim.assignedDRGWeight) := rfl
  have hw066 : (drgValidate claim).expectedDRGWeight = 1.0968 := by
    rw [hw, h]
    rfl
  have hr : (drgReviewClaim claim).expectedReimbursement =
      jsRound ((drgValidate claim).expectedDRGWeight * MS_DRG_BASE_RATE) := rfl
  rw [hr, hw066]
  exact hround

/-- Witness for C7: the concrete claim `drgClaim066` (whose expected DRG
falls back to its assigned DRG 066) is reimbursed 6800. -/
theorem c7_drg_reimbursement_arithmetic_witness :
    (drgReviewClaim drgClaim066).expectedReimbursement = 6800 :=
  c7_drg_reimbursement_arithmetic.2.2.2 drgClaim066 rfl

/-- Claim C10: for a claim whose id is absent from the expected-DRG
override table, the backend returns the claim's own assigned DRG,
description, and a weight taken from the MS-DRG table when present (the
assigned weight otherwise); the financial variance is then computed
against that weight. -/
theorem c10_expected_drg_fallback (claim : DRGClaim)
    (h : EXPECTED_DRG_MAP claim.id = none) :
    (drgValidate claim).expectedDRG = claim.assignedDRG ∧
    (drgValidate claim).expectedDRGDescription = claim.assignedDRGDescription ∧
    (drgValidate claim).expectedDRGWeight =
      (match MS_DRG_WEIGHTS claim.assignedDRG with
       | some w => w.1
       | none => claim.assignedDRGWeight) ∧
    (drgReviewClaim claim).financialVariance =
      jsRound ((drgValidate claim).expectedDRGWeight * MS_DRG_BASE_RATE) -
        claim.billedAmount := by
  have h1 : (drgValidate claim).expectedDRG =
      (match EXPECTED_DRG_MAP claim.id with
       | some e => e.1
       | none => claim.assignedDRG) := rfl
  have h2 : (drgValidate claim).expectedDRGDescription =
      (match EXPECTED_DRG_MAP claim.id with
       | some e => e.2
       | none => claim.assignedDRGDescription) := rfl
  have h3 : (drgValidate claim).expectedDRGWeight =
      (match MS_DRG_WEIGHTS ((drgValidate claim).expectedDRG) with
       | some w => w.1
       | none => claim.assignedDRGWeight) := rfl
  rw [h] at h1 h2
  refine ⟨h1, h2, ?_, rfl⟩
  rw [h3, h1]

/-- Witness for C10 at the concrete claim `drgClaim066` (id absent from
the override table, assigned DRG present in the weight table). -/
theorem c10_expected_drg_fallback_witness :
    (drgValidate drgClaim066).expectedDRG = drgClaim066.assignedDRG ∧
    (drgValidate drgClaim066).expectedDRGWeight = 1.0968 := by
  obtain ⟨ha, -, hw, -⟩ := c10_expected_drg_fallback drgClaim066 rfl
  exact ⟨ha, by rw [hw]; rfl⟩

/-- Counterexample for C2 as stated: with exactly 5 provider claims of
which exactly 4 are round (ratio exactly 0.8), `detectRoundNumberBilling`
fires with severity `Medium`, not `High` (the source requires
`ratio > 0.8`), although the impact is indeed the sum of the round
amounts. -/
theorem c2_roundNumber_counterexample :
    (detectRoundNumberBilling "P1" c2Claims).map OutlierFinding.severity =
      some .Medium ∧
    (detectRoundNumberBilling "P1" c2Claims).map OutlierFinding.estimatedImpact =
      some 750 ∧
    Severity.Medium ≠ Severity.High := by decide

/-- Claim C2 amended: for a provider with exactly 5 claims of which
exactly 4 have round amounts (ratio exactly 0.8, which does not exceed
the `ratio > 0.8` severity threshold), `detectRoundNumberBilling` fires
with severity `Medium` — not `High` — and `estimatedImpact` equal to the
sum of the round amounts. -/
theorem c2_roundNumber_amended (pid : String) (claims : List Claim)
    (h5 : (claims.filter (fun c => c.providerId == pid)).length = 5)
    (h4 : ((claims.filter (fun c => c.providerId == pid)).filter
      (fun c => isRoundNumber c.amount)).length = 4) :
    ∃ f, detectRoundNumberBilling pid claims = some f ∧
      f.severity = .Medium ∧
      f.estimatedImpact =
        (((claims.filter (fun c => c.providerId == pid)).filter
          (fun c => isRoundNumber c.amount)).map (·.amount)).sum := by
  simp only [detectRoundNumberBilling, h5, h4]
  norm_num

/-- Witness for C2 (amended) at the concrete claims list. -/
theorem c2_roundNumber_amended_witness :
    ∃ f, detectRoundNumberBilling "P1" c2Claims = some f ∧
      f.severity = .Medium ∧ f.estimatedImpact = 750 := by
  obtain ⟨f, hf, hsev, himp⟩ := c2_roundNumber_amended "P1" c2Claims (by decide) (by decide)
  refine ⟨f, hf, hsev, ?_⟩
  rw [himp]
  decide

/-- Membership through `pushUnique`. -/
theorem mem_pushUnique {l : List String} {x y : String} :
    y ∈ pushUnique l x ↔ y ∈ l ∨ y = x := by
  unfold pushUnique
  split_ifs with h
  · constructor
    · exact Or.inl
    · rintro (hy | rfl)
      · exact hy
      · exact h
  · simp [List.mem_append]

/-- Membership through the inner pair loop `dupInner`. -/
theorem mem_dupInner {a : Claim} {rest : List Claim} {acc : List String}
    {x : String} :
    x ∈ dupInner a rest acc ↔
      x ∈ acc ∨ ∃ b ∈ rest, dupPred a b = true ∧ (x = a.id ∨ x = b.id) := by
  induction rest generalizing acc with
  | nil => simp [dupInner]
  | cons b rest ih =>
    have hstep : dupInner a (b :: rest) acc =
        dupInner a rest
          (if dupPred a b then pushUnique (pushUnique acc a.id) b.id else acc) := rfl
    rw [hstep, ih]
    by_cases hb : dupPred a b = true
    · rw [if_pos hb]
      simp only [mem_pushUnique]
      constructor
      · rintro (((hx | hx) | hx) | ⟨c, hc, hpc, hxc⟩)
        · exact Or.inl hx
        · exact Or.inr ⟨b, List.mem_cons_self b rest, hb, Or.inl hx⟩
        · exact Or.inr ⟨b, List.mem_cons_self b rest, hb, Or.inr hx⟩
        · exact Or.inr ⟨c, List.mem_cons_of_mem b hc, hpc, hxc⟩
      · rintro (hx | ⟨c, hc, hpc, hxc⟩)
        · exact Or.inl (Or.inl (Or.inl hx))
        · rcases List.mem_cons.mp hc with rfl | hc
          · rcases hxc with hx | hx
            · exact Or.inl (Or.inl (Or.inr hx))
            · exact Or.inl (Or.inr hx)
          · exact Or.inr ⟨c, hc, hpc, hxc⟩
    · rw [if_neg hb]
      constructor
      · rintro (hx | ⟨c, hc, hpc, hxc⟩)
        · exact Or.inl hx
        · exact Or.inr ⟨c, List.mem_cons_of_mem b hc, hpc, hxc⟩
      · rintro (hx | ⟨c, hc, hpc, hxc⟩)
        · exact Or.inl hx
        · rcases List.mem_cons.mp hc with rfl | hc
          · exact absurd hpc hb
          · exact Or.inr ⟨c, hc, hpc, hxc⟩

/-- Membership through the outer nested loop `dupIds`. -/
theorem mem_dupIds {l : List Claim} {acc : List String} {x : String} :
    x ∈ dupIds l acc ↔ x ∈ acc ∨ dupMem x l := by
  induction l generalizing acc with
  | nil => simp [dupIds, dupMem]
  | cons a rest ih =>
    have hstep : dupIds (a :: rest) acc = dupIds rest (dupInner a rest acc) := rfl
    rw [hstep, ih, mem_dupInner]
    simp only [dupMem]
    exact or_assoc

/-- The pair condition of `detectDuplicateBilling` is symmetric. -/
theorem dupPred_comm (a b : Claim) : dupPred a b = dupPred b a := by
  unfold dupPred
  have h1 : (a.beneficiaryId == b.beneficiaryId) = (b.beneficiaryId == a.beneficiaryId) := by
    rw [Bool.eq_iff_iff, beq_iff_eq, beq_iff_eq]
    exact eq_comm
  have h2 : (a.procedureCode == b.procedureCode) = (b.procedureCode == a.procedureCode) := by
    rw [Bool.eq_iff_iff, beq_iff_eq, beq_iff_eq]
    exact eq_comm
  have h3 : daysApart a.serviceDate b.serviceDate = daysApart b.serviceDate a.serviceDate := by
    unfold daysApart
    rw [abs_sub_comm]
  rw [h1, h2]
  simp only [h3]

/-- `dupMem` is invariant under permutation of the claims list. -/
theorem dupMem_perm {l l' : List Claim} (h : l.Perm l') (x : String) :
    dupMem x l ↔ dupMem x l' := by
  induction h with
  | nil => exact Iff.rfl
  | cons a hperm ih =>
    simp only [dupMem]
    constructor
    · rintro (⟨b, hb, hpb, hxb⟩ | hm)
      · exact Or.inl ⟨b, hperm.mem_iff.mp hb, hpb, hxb⟩
      · exact Or.inr (ih.mp hm)
    · rintro (⟨b, hb, hpb, hxb⟩ | hm)
      · exact Or.inl ⟨b, hperm.mem_iff.mpr hb, hpb, hxb⟩
      · exact Or.inr (ih.mpr hm)
  | swap a b l₀ =>
    simp only [dupMem]
    constructor
    · rintro (⟨c, hc, hpc, hxc⟩ | ⟨c, hc, hpc, hxc⟩ | hm)
      · rcases List.mem_cons.mp hc with hca | hc
        · exact Or.inl ⟨b, List.mem_cons_self b l₀,
            dupPred_comm b a ▸ (hca ▸ hpc), (hca ▸ hxc).symm⟩
        · exact Or.inr (Or.inl ⟨c, hc, hpc, hxc⟩)
      · exact Or.inl ⟨c, List.mem_cons_of_mem b hc, hpc, hxc⟩
      · exact Or.inr (Or.inr hm)
    · rintro (⟨c, hc, hpc, hxc⟩ | ⟨c, hc, hpc, hxc⟩ | hm)
      · rcases List.mem_cons.mp hc with hcb | hc
        · exact Or.inl ⟨a, List.mem_cons_self a l₀,
            dupPred_comm a b ▸ (hcb ▸ hpc), (hcb ▸ hxc).symm⟩
        · exact Or.inr (Or.inl ⟨c, hc, hpc, hxc⟩)
      · exact Or.inl ⟨c, List.mem_cons_of_mem a hc, hpc, hxc⟩
      · exact Or.inr (Or.inr hm)
  | trans _ _ ih1 ih2 => exact ih1.trans ih2

/-- `detectDuplicateBilling` fires once the nested pair loop produced at
least one id, and then reports exactly those ids. -/
theorem detectDuplicateBilling_some (pid : String) (claims : List Claim)
    (h : dupIds (claims.filter (fun c => c.providerId == pid)) [] ≠ []) :
    ∃ f, detectDuplicateBilling pid claims = some f ∧
      f.affectedClaimIds = dupIds (claims.filter (fun c => c.providerId == pid)) [] := by
  simp only [detectDuplicateBilling]
  rw [if_neg (by simpa [List.length_eq_zero] using h)]
  exact ⟨_, rfl, rfl⟩

/-- Claim C6: for every claims list containing two claims `A` and `B`
with the same provider, the same beneficiary, the same procedure code
and service dates at most 7 days apart, `detectDuplicateBilling` for
that provider fires and its affected-claim list contains both ids; and
for every permutation of the claims list it still fires, with an
affected-claim list equal as a set. -/
theorem c6_duplicate_billing_symmetry (pid : String) (claims : List Claim)
    (A B : Claim) (rest : List Claim)
    (hperm : claims.Perm (A :: B :: rest))
    (hA : A.providerId = pid) (hB : B.providerId = pid)
    (hben : A.beneficiaryId = B.beneficiaryId)
    (hproc : A.procedureCode = B.procedureCode)
    (hdate : daysApart A.serviceDate B.serviceDate ≤ 7) :
    (∃ f, detectDuplicateBilling pid claims = some f ∧
      A.id ∈ f.affectedClaimIds ∧ B.id ∈ f.affectedClaimIds) ∧
    ∀ claims' : List Claim, claims.Perm claims' →
      ∃ f f', detectDuplicateBilling pid claims = some f ∧
        detectDuplicateBilling pid claims' = some f' ∧
        ∀ x, x ∈ f.affectedClaimIds ↔ x ∈ f'.affectedClaimIds := by
  have hpred : dupPred A B = true := by
    simp [dupPred, hben, hproc, hdate]
  have hmem : ∀ l : List Claim, l.Perm (A :: B :: rest) →
      A.id ∈ dupIds (l.filter (fun c => c.providerId == pid)) [] ∧
      B.id ∈ dupIds (l.filter (fun c => c.providerId == pid)) [] := by
    intro l hl
    have hpc : (l.filter (fun c => c.providerId == pid)).Perm
        (A :: B :: rest.filter (fun c => c.providerId == pid)) := by
      have h2 := hl.filter (fun c => c.providerId == pid)
      simpa [List.filter_cons, hA, hB] using h2
    have hdmA : dupMem A.id (A :: B :: rest.filter (fun c => c.providerId == pid)) :=
      Or.inl ⟨B, List.mem_cons_self B _, hpred, Or.inl rfl⟩
    have hdmB : dupMem B.id (A :: B :: rest.filter (fun c => c.providerId == pid)) :=
      Or.inl ⟨B, List.mem_cons_self B _, hpred, Or.inr rfl⟩
    exact ⟨mem_dupIds.mpr (Or.inr ((dupMem_perm hpc A.id).mpr hdmA)),
      mem_dupIds.mpr (Or.inr ((dupMem_perm hpc B.id).mpr hdmB))⟩
  obtain ⟨hmA, hmB⟩ := hmem claims hperm
  obtain ⟨f, hf, haff⟩ :=
    detectDuplicateBilling_some pid claims (List.ne_nil_of_mem hmA)
  refine ⟨⟨f, hf, haff.symm ▸ hmA, haff.symm ▸ hmB⟩, ?_⟩
  intro claims' hperm'
  obtain ⟨hmA', -⟩ := hmem claims' (hperm'.symm.trans hperm)
  obtain ⟨f', hf', haff'⟩ :=
    detectDuplicateBilling_some pid claims' (List.ne_nil_of_mem hmA')
  refine ⟨f, f', hf, hf', ?_⟩
  intro x
  rw [haff, haff', mem_dupIds, mem_dupIds]
  have hpp : (claims.filter (fun c => c.providerId == pid)).Perm
      (claims'.filter (fun c => c.providerId == pid)) :=
    hperm'.filter (fun c => c.providerId == pid)
  simp only [List.not_mem_nil, false_or]
  exact dupMem_perm hpp x

/-- Witness for C6 at the concrete duplicate pair `cDupA`, `cDupB`. -/
theorem c6_duplicate_billing_symmetry_witness :
    ∃ f, detectDuplicateBilling "P7" [cDupA, cDupB] = some f ∧
      cDupA.id ∈ f.affectedClaimIds ∧ cDupB.id ∈ f.affectedClaimIds :=
  (c6_duplicate_billing_symmetry "P7" [cDupA, cDupB] cDupA cDupB []
    (List.Perm.refl _) rfl rfl rfl rfl
    (by norm_num [cDupA, cDupB, daysApart])).1

/-- `Math.round` sends nonnegative arguments to nonnegative results. -/
theorem jsRound_nonneg {q : ℚ} (h : 0 ≤ q) : 0 ≤ jsRound q := by
  rw [jsRound_eq]
  have h2 : (0 : ℤ) ≤ ⌊q + 1/2⌋ := Int.le_floor.mpr (by push_cast; linarith)
  exact_mod_cast h2

/-- All severity points are nonnegative. -/
theorem severityPoints_nonneg (s : Severity) : 0 ≤ severityPoints s := by
  cases s <;> norm_num [severityPoints]

/-- All outlier severity weights are nonnegative. -/
theorem severity_weights_nonneg (s : Severity) : 0 ≤ SEVERITY_WEIGHTS s := by
  cases s <;> norm_num [SEVERITY_WEIGHTS]

/-- `stdDev` is nonnegative. -/
theorem stdDev_nonneg (values : List ℚ) : 0 ≤ stdDev values := by
  unfold stdDev
  split_ifs
  · exact le_rfl
  · exact Real.sqrt_nonneg _

/-- A z-score exceeding a nonnegative threshold forces a positive
deviation from the mean. -/
theorem zScore_gt_pos {v m : ℚ} {sd : ℝ} (hsd : 0 ≤ sd) {t : ℝ} (ht : 0 ≤ t)
    (h : t < zScore v m sd) : 0 < v - m := by
  unfold zScore at h
  split_ifs at h with h0
  · linarith
  · have hsdpos : 0 < sd := lt_of_le_of_ne hsd (Ne.symm h0)
    have h2 : 0 < ((v - m : ℚ) : ℝ) / sd := lt_of_le_of_lt ht h
    have h3 : 0 < ((v - m : ℚ) : ℝ) := by
      rcases div_pos_iff.mp h2 with ⟨hx, -⟩ | ⟨-, hneg⟩
      · exact hx
      · linarith
    exact_mod_cast h3

/-- The summed amounts of claims drawn from a nonnegative-amount pool are
nonnegative. -/
theorem sum_map_amount_nonneg {claims l : List Claim}
    (hamt : ∀ c ∈ claims, 0 ≤ c.amount) (hsub : ∀ c ∈ l, c ∈ claims) :
    0 ≤ (l.map (fun c => c.amount)).sum :=
  List.sum_nonneg (fun x hx => by
    obtain ⟨c, hc, rfl⟩ := List.mem_map.mp hx
    exact hamt c (hsub c hc))

/-- A left fold that only ever adds nonnegative steps stays nonnegative. -/
theorem foldl_add_nonneg {α : Type} (f : ℚ → α → ℚ)
    (hstep : ∀ s x, 0 ≤ s → 0 ≤ f s x) :
    ∀ (l : List α) (s : ℚ), 0 ≤ s → 0 ≤ l.foldl f s := by
  intro l
  induction l with
  | nil => intro s h; rw [List.foldl_nil]; exact h
  | cons a l ih =>
    intro s h
    rw [List.foldl_cons]
    exact ih _ (hstep s a h)

/-- With nonnegative amounts, a duplicate-billing finding has nonnegative
estimated impact. -/
theorem dup_impact_nonneg {pid : String} {claims : List Claim}
    (hamt : ∀ c ∈ claims, 0 ≤ c.amount) {f : OutlierFinding}
    (hf : detectDuplicateBilling pid claims = some f) : 0 ≤ f.estimatedImpact := by
  simp only [detectDuplicateBilling] at hf
  split at hf
  · exact Option.noConfusion hf
  · obtain rfl := (Option.some.inj hf).symm
    exact sum_map_amount_nonneg hamt
      (fun c hc => List.mem_of_mem_filter (List.mem_of_mem_filter hc))

/-- With nonnegative amounts, a high-frequency finding has nonnegative
estimated impact. -/
theorem highFreq_impact_nonneg {pid : String} {claims : List Claim}
    (hamt : ∀ c ∈ claims, 0 ≤ c.amount) {f : OutlierFinding}
    (hf : detectHighFrequencyBilling pid claims = some f) : 0 ≤ f.estimatedImpact := by
  simp only [detectHighFrequencyBilling] at hf
  split at hf
  · exact Option.noConfusion hf
  · split at hf
    · exact Option.noConfusion hf
    · obtain rfl := (Option.some.inj hf).symm
      exact sum_map_amount_nonneg hamt (fun c hc => List.mem_of_mem_filter hc)

/-- One step of the amount-outlier fold keeps the accumulated excess
nonnegative: a procedure code only contributes when the provider average
exceeds the z-score threshold over the peer mean. -/
theorem amountOutlierStep_nonneg (pid : String) (claims providerClaims : List Claim)
    (acc : List String × ℚ) (code : String) (h : 0 ≤ acc.2) :
    0 ≤ (amountOutlierStep pid claims providerClaims acc code).2 := by
  simp only [amountOutlierStep]
  split
  · exact h
  · split
    · exact h
    · split
      · exact h
      · split
        · rename_i hz
          exact add_nonneg h (mul_nonneg
            (zScore_gt_pos (stdDev_nonneg _) (by norm_num) hz).le (Nat.cast_nonneg _))
        · exact h

/-- The amount-outlier fold starting from a nonnegative excess stays
nonnegative. -/
theorem foldl_amountOutlier_nonneg (pid : String) (claims providerClaims : List Claim) :
    ∀ (codes : List String) (acc : List String × ℚ), 0 ≤ acc.2 →
      0 ≤ (codes.foldl (amountOutlierStep pid claims providerClaims) acc).2 := by
  intro codes
  induction codes with
  | nil => intro acc h; rw [List.foldl_nil]; exact h
  | cons c cs ih =>
    intro acc h
    rw [List.foldl_cons]
    exact ih _ (amountOutlierStep_nonneg pid claims providerClaims acc c h)

/-- An amount-outlier finding has nonnegative estimated impact. -/
theorem amountOutlier_impact_nonneg {pid : String} {claims : List Claim}
    {f : OutlierFinding}
    (hf : detectAmountOutlier pid claims = some f) : 0 ≤ f.estimatedImpact := by
  simp only [detectAmountOutlier] at hf
  split at hf
  · exact Option.noConfusion hf
  · split at hf
    · exact Option.noConfusion hf
    · obtain rfl := (Option.some.inj hf).symm
      exact jsRound_nonneg (foldl_amountOutlier_nonneg _ _ _ _ _ (by norm_num))

/-- A provider-amount-pattern finding has nonnegative estimated impact. -/
theorem provPattern_impact_nonneg {pid : String} {claims : List Claim}
    {f : OutlierFinding}
    (hf : detectProviderAmountPattern pid claims = some f) : 0 ≤ f.estimatedImpact := by
  simp only [detectProviderAmountPattern] at hf
  split at hf
  · exact Option.noConfusion hf
  · split at hf
    · exact Option.noConfusion hf
    · split at hf
      · exact Option.noConfusion hf
      · split at hf
        · exact Option.noConfusion hf
        · split at hf
          · exact Option.noConfusion hf
          · obtain rfl := (Option.some.inj hf).symm
            rename_i hz
            exact jsRound_nonneg (mul_nonneg
              (zScore_gt_pos (stdDev_nonneg _) (by norm_num) (lt_of_not_le hz)).le
              (Nat.cast_nonneg _))

/-- With nonnegative amounts, a beneficiary-churning finding has
nonnegative estimated impact. -/
theorem churning_impact_nonneg {pid : String} {claims : List Claim}
    (hamt : ∀ c ∈ claims, 0 ≤ c.amount) {f : OutlierFinding}
    (hf : detectBeneficiaryChurning pid claims = some f) : 0 ≤ f.estimatedImpact := by
  simp only [detectBeneficiaryChurning] at hf
  split at hf
  · exact Option.noConfusion hf
  · split at hf
    · exact Option.noConfusion hf
    · obtain rfl := (Option.some.inj hf).symm
      refine foldl_add_nonneg _ ?_ _ _ le_rfl
      intro s i hs
      split
      · rename_i c hc
        exact add_nonneg hs
          (hamt c (List.mem_of_mem_filter (List.mem_of_find?_eq_some hc)))
      · simpa using hs

/-- With nonnegative amounts, a round-number finding has nonnegative
estimated impact. -/
theorem roundNumber_impact_nonneg {pid : String} {claims : List Claim}
    (hamt : ∀ c ∈ claims, 0 ≤ c.amount) {f : OutlierFinding}
    (hf : detectRoundNumberBilling pid claims = some f) : 0 ≤ f.estimatedImpact := by
  simp only [detectRoundNumberBilling] at hf
  split at hf
  · exact Option.noConfusion hf
  · split at hf
    · exact Option.noConfusion hf
    · obtain rfl := (Option.some.inj hf).symm
      exact sum_map_amount_nonneg hamt
        (fun c hc => List.mem_of_mem_filter (List.mem_of_mem_filter hc))

/-- With nonnegative amounts, a risk-score-concentration finding has
nonnegative estimated impact. -/
theorem riskConc_impact_nonneg {pid : String} {claims : List Claim}
    (hamt : ∀ c ∈ claims, 0 ≤ c.amount) {f : OutlierFinding}
    (hf : detectRiskScoreConcentration pid claims = some f) : 0 ≤ f.estimatedImpact := by
  simp only [detectRiskScoreConcentration] at hf
  split at hf
  · exact Option.noConfusion hf
  · split at hf
    · exact Option.noConfusion hf
    · obtain rfl := (Option.some.inj hf).symm
      exact sum_map_amount_nonneg hamt
        (fun c hc => List.mem_of_mem_filter (List.mem_of_mem_filter hc))

/-- With nonnegative amounts, every outlier finding has nonnegative
estimated impact. -/
theorem runOutlier_impact_nonneg {pid : String} {claims : List Claim}
    (hamt : ∀ c ∈ claims, 0 ≤ c.amount) :
    ∀ f ∈ runOutlierRules pid claims, 0 ≤ f.estimatedImpact := by
  intro f hf
  simp only [runOutlierRules, List.mem_filterMap, id_eq] at hf
  obtain ⟨o, ho, rfl⟩ := hf
  simp only [List.mem_cons, List.not_mem_nil, or_false] at ho
  rcases ho with h | h | h | h | h | h | h
  · exact dup_impact_nonneg hamt h.symm
  · exact highFreq_impact_nonneg hamt h.symm
  · exact amountOutlier_impact_nonneg h.symm
  · exact provPattern_impact_nonneg h.symm
  · exact churning_impact_nonneg hamt h.symm
  · exact roundNumber_impact_nonneg hamt h.symm
  · exact riskConc_impact_nonneg hamt h.symm

/-- The denial risk is clamped into `[0, 100]`. -/
theorem calculateDenialRisk_bounds (claim : MedNecessityClaim)
    (criteria : MedNecessityCriteria) (findings : List MedNecessityFinding) :
    0 ≤ calculateDenialRisk claim criteria findings ∧
      calculateDenialRisk claim criteria findings ≤ 100 := by
  simp only [calculateDenialRisk]
  constructor
  · refine le_min (by norm_num) ?_
    split_ifs <;> positivity
  · exact min_le_left _ _

/-- The preventability score is clamped into `[0, 100]`. -/
theorem calculatePreventability_bounds (pair : ReadmissionPair)
    (findings : List ReadmissionFinding) :
    0 ≤ calculatePreventability pair findings ∧
      calculatePreventability pair findings ≤ 100 := by
  simp only [calculatePreventability]
  by_cases hp : pair.isPlannedReadmission = true
  · rw [if_pos hp]
    norm_num
  · rw [if_neg hp]
    constructor
    · refine le_min (by norm_num) ?_
      split_ifs <;> positivity
    · exact min_le_left _ _

/-- The HRRP penalty risk is clamped into `[0, 100]`. -/
theorem calculateHRRPRisk_bounds (pair : ReadmissionPair)
    (findings : List ReadmissionFinding) :
    0 ≤ calculateHRRPRisk pair findings ∧ calculateHRRPRisk pair findings ≤ 100 := by
  simp only [calculateHRRPRisk]
  by_cases h1 : pair.hrrpTargetCondition = none
  · rw [if_pos h1]
    norm_num
  · rw [if_neg h1]
    by_cases h2 : pair.isPlannedReadmission = true
    · rw [if_pos h2]
      norm_num
    · rw [if_neg h2]
      by_cases h3 : 30 < pair.daysBetween
      · rw [if_pos h3]
        norm_num
      · rw [if_neg h3]
        constructor
        · refine le_min (by norm_num) ?_
          split_ifs <;> positivity
        · exact min_le_left _ _

/-- With nonnegative amounts, the provider risk score of the outlier
vertical is clamped into `[0, 100]`. -/
theorem outlierRiskScore_bounds (pid : String) (claims : List Claim)
    (hamt : ∀ c ∈ claims, 0 ≤ c.amount) :
    0 ≤ outlierRiskScore pid claims ∧ outlierRiskScore pid claims ≤ 100 := by
  have hsev : 0 ≤ ((runOutlierRules pid claims).map
      (fun f => SEVERITY_WEIGHTS f.severity)).sum :=
    List.sum_nonneg (fun x hx => by
      obtain ⟨g, -, rfl⟩ := List.mem_map.mp hx
      exact severity_weights_nonneg _)
  have hexp : 0 ≤ ((runOutlierRules pid claims).map
      (fun f => f.estimatedImpact)).sum :=
    List.sum_nonneg (fun x hx => by
      obtain ⟨g, hg, rfl⟩ := List.mem_map.mp hx
      exact runOutlier_impact_nonneg hamt g hg)
  constructor
  · simp only [outlierRiskScore]
    refine le_min (by norm_num) (add_nonneg hsev
      (le_min (by norm_num) (jsRound_nonneg (mul_nonneg ?_ (by norm_num)))))
    split_ifs with h
    · exact div_nonneg hexp h.le
    · exact le_rfl
  · simp only [outlierRiskScore]
    exact min_le_left _ _

/-- Claim C4 amended: the medical-necessity confidence, denial risk and
risk score, the DRG confidence and risk score, and the readmission
confidence, preventability score, HRRP penalty risk and risk score lie in
`[0, 100]` for every entity; the outlier provider risk score lies in
`[0, 100]` whenever every claim amount is nonnegative (with a negative
amount it can drop below `0`, see the counterexample). -/
theorem c4_score_bounds_amended (mc : MedNecessityClaim) (dc : DRGClaim)
    (pair : ReadmissionPair) (pid : String) (claims : List Claim)
    (hamt : ∀ c ∈ claims, 0 ≤ c.amount) :
    (0 ≤ (mnEvaluate mc).confidence ∧ (mnEvaluate mc).confidence ≤ 100 ∧
     0 ≤ (mnEvaluate mc).denialRisk ∧ (mnEvaluate mc).denialRisk ≤ 100 ∧
     0 ≤ mnRiskScore mc ∧ mnRiskScore mc ≤ 100) ∧
    (0 ≤ (drgReviewClaim dc).agentConfidence ∧
     (drgReviewClaim dc).agentConfidence ≤ 100 ∧
     0 ≤ (drgReviewClaim dc).riskScore ∧ (drgReviewClaim dc).riskScore ≤ 100) ∧
    (0 ≤ (raEvaluate pair).confidence ∧ (raEvaluate pair).confidence ≤ 100 ∧
     0 ≤ (raEvaluate pair).preventabilityScore ∧
     (raEvaluate pair).preventabilityScore ≤ 100 ∧
     0 ≤ (raEvaluate pair).hrrpPenaltyRisk ∧
     (raEvaluate pair).hrrpPenaltyRisk ≤ 100 ∧
     0 ≤ raRiskScore pair ∧ raRiskScore pair ≤ 100) ∧
    (0 ≤ outlierRiskScore pid claims ∧ outlierRiskScore pid claims ≤ 100) := by
  have hfsmn : 0 ≤ ((runAllMedNecessityRules mc).map
      (fun f => severityPoints f.severity)).sum :=
    List.sum_nonneg (fun x hx => by
      obtain ⟨g, -, rfl⟩ := List.mem_map.mp hx
      exact severityPoints_nonneg _)
  have hfsdrg : 0 ≤ ((runAllDRGRules dc).map
      (fun f => severityPoints f.severity)).sum :=
    List.sum_nonneg (fun x hx => by
      obtain ⟨g, -, rfl⟩ := List.mem_map.mp hx
      exact severityPoints_nonneg _)
  have hfsra : 0 ≤ ((runAllReadmissionRules pair).map
      (fun f => severityPoints f.severity)).sum :=
    List.sum_nonneg (fun x hx => by
      obtain ⟨g, -, rfl⟩ := List.mem_map.mp hx
      exact severityPoints_nonneg _)
  have hdr := calculateDenialRisk_bounds mc
    (assessCriteria mc (runAllMedNecessityRules mc)) (runAllMedNecessityRules mc)
  have hprev := calculatePreventability_bounds pair (runAllReadmissionRules pair)
  have hhrrp := calculateHRRPRisk_bounds pair (runAllReadmissionRules pair)
  refine ⟨⟨?_, ?_, ?_, ?_, ?_, ?_⟩, ⟨?_, ?_, ?_, ?_⟩,
    ⟨?_, ?_, ?_, ?_, ?_, ?_, ?_, ?_⟩, outlierRiskScore_bounds pid claims hamt⟩
  · simp only [mnEvaluate]
    split_ifs
    · norm_num
    · exact le_trans (by norm_num) (le_max_left _ _)
  · simp only [mnEvaluate]
    split_ifs
    · norm_num
    · refine max_le (by norm_num) ?_
      have := (Nat.cast_nonneg (α := ℚ) (runAllMedNecessityRules mc).length)
      linarith
  · simpa only [mnEvaluate] using hdr.1
  · simpa only [mnEvaluate] using hdr.2
  · simp only [mnRiskScore, mnEvaluate]
    exact le_min (by norm_num) (jsRound_nonneg (add_nonneg
      (mul_nonneg hfsmn (by norm_num)) (mul_nonneg hdr.1 (by norm_num))))
  · simp only [mnRiskScore]
    exact min_le_left _ _
  · simp only [drgReviewClaim, drgValidate]
    split_ifs
    · norm_num
    · exact le_trans (by norm_num) (le_max_left _ _)
  · simp only [drgReviewClaim, drgValidate]
    split_ifs
    · norm_num
    · refine max_le (by norm_num) ?_
      have := (Nat.cast_nonneg (α := ℚ) (runAllDRGRules dc).length)
      linarith
  · simp only [drgReviewClaim, drgValidate]
    exact le_min (by norm_num) (add_nonneg hfsdrg
      (le_min (by norm_num) (jsRound_nonneg (by positivity))))
  · simp only [drgReviewClaim]
    exact min_le_left _ _
  · simp only [raEvaluate]
    split_ifs
    · norm_num
    · exact le_trans (by norm_num) (le_max_left _ _)
  · simp only [raEvaluate]
    split_ifs
    · norm_num
    · refine max_le (by norm_num) ?_
      have := (Nat.cast_nonneg (α := ℚ) (runAllReadmissionRules pair).length)
      linarith
  · simpa only [raEvaluate] using hprev.1
  · simpa only [raEvaluate] using hprev.2
  · simpa only [raEvaluate] using hhrrp.1
  · simpa only [raEvaluate] using hhrrp.2
  · simp only [raRiskScore, raEvaluate]
    exact le_min (by norm_num) (jsRound_nonneg (add_nonneg
      (add_nonneg (mul_nonneg hfsra (by norm_num))
        (mul_nonneg hprev.1 (by norm_num)))
      (mul_nonneg hhrrp.1 (by norm_num))))
  · simp only [raRiskScore]
    exact min_le_left _ _

/-- Witness for C4 (amended) at concrete entities of each vertical. -/
theorem c4_score_bounds_amended_witness :
    (∀ c ∈ c2Claims, 0 ≤ c.amount) ∧
    0 ≤ outlierRiskScore "P1" c2Claims ∧ outlierRiskScore "P1" c2Claims ≤ 100 :=
  ⟨by decide,
   (c4_score_bounds_amended mnClaimC1 drgClaim066 pairCleanNP "P1" c2Claims
     (by decide)).2.2.2⟩

/-- Counterexample for C4 as stated: on `cexClaims` — four claims of one
provider, three of them high-risk, one with a large negative amount — the
risk-score-concentration rule fires with estimated impact `−9997`, the
total billed amount is `10 > 0`, and the provider risk score evaluates to
`min 100 (20 + min 40 (round(−9997/10·40))) = −39968 < 0`, outside
`[0, 100]`. -/
theorem c4_score_bounds_counterexample : outlierRiskScore "P1" cexClaims < 0 := by
  have h1 : detectDuplicateBilling "P1" cexClaims = none := by decide
  have h2 : detectHighFrequencyBilling "P1" cexClaims = none := by
    simp only [detectHighFrequencyBilling]
    rw [if_pos (by decide)]
  have hstep : ∀ code, (cexClaims.filter (fun c => c.procedureCode == code)).length < 4 →
      amountOutlierStep "P1" cexClaims
        (cexClaims.filter (fun c => c.providerId == "P1")) ([], 0) code = ([], 0) := by
    intro code hlt
    simp only [amountOutlierStep]
    rw [if_pos hlt]
  have hcodes : dedupFirst (cexClaims.map (·.procedureCode)) =
      ["PC1", "PC2", "PC3", "PC4"] := by decide
  have h3 : detectAmountOutlier "P1" cexClaims = none := by
    simp only [detectAmountOutlier]
    rw [if_neg (by decide), hcodes, List.foldl_cons, hstep _ (by decide),
      List.foldl_cons, hstep _ (by decide), List.foldl_cons, hstep _ (by decide),
      List.foldl_cons, hstep _ (by decide), List.foldl_nil, if_pos (by decide)]
  have h4 : detectProviderAmountPattern "P1" cexClaims = none := by
    simp only [detectProviderAmountPattern]
    rw [if_pos (by decide)]
  have hz0 : ∀ v m : ℚ, zScore v m 0 = 0 := fun v m => if_pos rfl
  have hsd : stdDev ((dedupFirst (cexClaims.map (·.beneficiaryId))).map
      (fun bid => ((cexClaims.filter (fun c => c.beneficiaryId == bid)).length : ℚ))) = 0 := by
    have hcounts : (dedupFirst (cexClaims.map (·.beneficiaryId))).map
        (fun bid => ((cexClaims.filter (fun c => c.beneficiaryId == bid)).length : ℚ)) =
        [1, 1, 1, 1] := by decide
    rw [hcounts]
    simp only [stdDev]
    rw [if_neg (by decide), show sampleVar [1, 1, 1, 1] = 0 from by decide,
      Rat.cast_zero, Real.sqrt_zero]
  have hdf : (decide ((2 : ℝ) < 0)) = false := decide_eq_false (by norm_num)
  have h5 : detectBeneficiaryChurning "P1" cexClaims = none := by
    simp only [detectBeneficiaryChurning]
    rw [if_neg (by decide)]
    simp only [hsd, hz0, hdf]
    simp
  have h6 : detectRoundNumberBilling "P1" cexClaims = none := by decide
  have h7 : detectRiskScoreConcentration "P1" cexClaims =
      some ⟨"RISK_SCORE_CONCENTRATION", .High, ["X1", "X2", "X3"], -9997⟩ := by decide
  have hrun : runOutlierRules "P1" cexClaims =
      [⟨"RISK_SCORE_CONCENTRATION", .High, ["X1", "X2", "X3"], -9997⟩] := by
    simp only [runOutlierRules, h1, h2, h3, h4, h5, h6, h7]
    rfl
  simp only [outlierRiskScore, hrun]
  decide

end FWA
